import Mathlib

/-!
Verification of the baretk decoder/lifter core against its specification.

The definitions below are a shallow embedding of the Rust sources
(src/util.rs, src/riscv.rs, src/arm.rs, src/x86.rs, src/decomp.rs,
src/dis.rs).  Machine integers are modelled as `Nat` (unsigned values,
with explicit `% 2^w` wherever the Rust operation wraps) and as `Int`
(signed values, converted at the exact points where the Rust code casts
between signed and unsigned).  Fallible operations (out-of-bounds slice
indexing, `panic!`) are modelled with `Except Unit`, where `.error ()`
stands for a panic.
-/

namespace Baretk

/-- Two's-complement reinterpretation of a bit pattern as an i8. -/
def toI8 (x : Nat) : Int :=
  if x % 2^8 < 2^7 then ((x % 2^8 : Nat) : Int) else ((x % 2^8 : Nat) : Int) - 2^8

/-- Two's-complement reinterpretation of a bit pattern as an i16. -/
def toI16 (x : Nat) : Int :=
  if x % 2^16 < 2^15 then ((x % 2^16 : Nat) : Int) else ((x % 2^16 : Nat) : Int) - 2^16

/-- Two's-complement reinterpretation of a bit pattern as an i64. -/
def toI64 (x : Nat) : Int :=
  if x % 2^64 < 2^63 then ((x % 2^64 : Nat) : Int) else ((x % 2^64 : Nat) : Int) - 2^64

/-- Two's-complement reinterpretation of a bit pattern as an i32. -/
def toI32 (x : Nat) : Int :=
  if x % 2^32 < 2^31 then ((x % 2^32 : Nat) : Int) else ((x % 2^32 : Nat) : Int) - 2^32

/-- The u8 bit pattern of an i8 value (wrapping cast). -/
def intToU8 (z : Int) : Nat := (z % 2^8).toNat

/-- The u16 bit pattern of an i16 value (wrapping cast). -/
def intToU16 (z : Int) : Nat := (z % 2^16).toNat

/-- The u32 bit pattern of an i32 value (wrapping cast). -/
def intToU32 (z : Int) : Nat := (z % 2^32).toNat

/-- The u64 bit pattern of an i64 value (wrapping cast). -/
def intToU64 (z : Int) : Nat := (z % 2^64).toNat

/-- Arithmetic shift right of a signed value: floor division by `2^n`
(Rust `>>` on a signed integer). -/
def sar (x : Int) (n : Nat) : Int := Int.fdiv x (2^n)

/-- `util.rs` `impl BitExtr for u32`: `(self << (32 - start - 1)) >> (32 - (start - stop) - 1)`
without the assertion (all internal decoder calls satisfy it); Rust `<<` on
u32 discards overflowing bits, hence the `% 2^32`. -/
def bextrU32 (x start stop : Nat) : Nat :=
  ((x <<< (32 - start - 1)) % 2^32) >>> (32 - (start - stop) - 1)

/-- `util.rs` `impl BitExtr for u16`. -/
def bextrU16 (x start stop : Nat) : Nat :=
  ((x <<< (16 - start - 1)) % 2^16) >>> (16 - (start - stop) - 1)

/-- `util.rs` `impl BitExtr for i32` (arithmetic right shift). -/
def sbextrI32 (x : Nat) (start stop : Nat) : Int :=
  sar (toI32 ((x <<< (32 - start - 1)) % 2^32)) (32 - (start - stop) - 1)

/-- `util.rs` `impl BitExtr for i16` (arithmetic right shift). -/
def sbextrI16 (x : Nat) (start stop : Nat) : Int :=
  sar (toI16 ((x <<< (16 - start - 1)) % 2^16)) (16 - (start - stop) - 1)

/-- `util.rs` `bextr` for u32 including the `assert!(start < Self::BITS && stop <= start)`:
`none` models the assertion failure. -/
def bextrU32Checked (x start stop : Nat) : Option Nat :=
  if start < 32 ∧ stop ≤ start then some (bextrU32 x start stop) else none

/-- `util.rs` `bextr` for u16 including the assertion. -/
def bextrU16Checked (x start stop : Nat) : Option Nat :=
  if start < 16 ∧ stop ≤ start then some (bextrU16 x start stop) else none

/-- Reference definition of bit extraction, following the specification's
words: `(x >> lo) & ((1 << (hi-lo+1)) - 1)`. -/
def bextrSpec (x hi lo : Nat) : Nat :=
  (x >>> lo) &&& ((1 <<< (hi - lo + 1)) - 1)

/-- `util.rs` `i32_sign`. -/
def i32Sign (x : Int) : String := if x < 0 then "-" else "+"

/-! ## decomp.rs: the expression IR -/

/-- `decomp.rs` binary-operator codes (`OP_ADD` … `OP_OROR`). -/
def OP_ADD : Nat := 0x0
def OP_SUB : Nat := 0x1
def OP_MUL : Nat := 0x2
def OP_AND : Nat := 0x3
def OP_OR : Nat := 0x4
def OP_XOR : Nat := 0x5
def OP_LSL : Nat := 0x6
def OP_LSR : Nat := 0x7
def OP_ASR : Nat := 0x8
def OP_CMP : Nat := 0x9
def OP_LT : Nat := 0xa
def OP_GT : Nat := 0xb
def OP_LTE : Nat := 0xc
def OP_GTE : Nat := 0xd
def OP_EQ : Nat := 0xe
def OP_NEQ : Nat := 0xf
def OP_ROR : Nat := 0x11
def OP_ANDAND : Nat := 0x12
def OP_OROR : Nat := 0x13

/-- `decomp.rs` `enum Expr`: the recursive expression IR.  Constructor
payloads mirror the Rust variants; `i64` constants are `Int`, the
dereference size `u8` is `Nat`. -/
inductive Expr : Type where
  | constant (i : Int)
  | label (s : String)
  | register (s : String)
  | special (s : String) (args : List Expr)
  | dereference (size : Nat) (addr : Expr)
  | binary (op : Nat) (lhs rhs : Expr)
  | call (callee : Expr)
  | goto (target : Expr)
  | store (dest src : Expr)
  | group (es : List Expr)
  | ifE (cond then_ : Expr) (else_ : Option Expr)
  | nop
  | ret

/-- Result of running a decoder driver loop: it either panics (slice
out of bounds), runs out of fuel (never happens for the supplied fuel,
but kept explicit so the definitions stay executable), or completes
with the instruction list. -/
inductive RunRes (α : Type) : Type where
  | panicked
  | fuelOut
  | ok (val : α)
  deriving DecidableEq

/-- `instrs.push(ins)` inside a driver loop: prepend the decoded
instruction to the rest of the run when it completes, propagate a panic
or fuel exhaustion otherwise. -/
def RunRes.consOk {α : Type} (a : α) : RunRes (List α) → RunRes (List α)
  | .ok rest => .ok (a :: rest)
  | r => r

/-! ## riscv.rs: decoder and lifter -/

namespace Rv

/-- `riscv.rs` `REG_NAMES`. -/
def regNames : List String :=
  ["Zero", "ra", "sp", "gp", "tp", "t0", "t1", "t2",
   "s0", "s1", "a0", "a1", "a2", "a3", "a4", "a5",
   "a6", "a7", "s2", "s3", "s4", "s5", "s6", "s7",
   "s8", "s9", "s10", "s11", "t3", "t4", "t5", "t6"]

/-- `riscv.rs` `Register::name`. -/
def regName (r : Nat) : String := (regNames.get? r).getD "?"

/-- `riscv.rs` `enum Operation`. -/
inductive Operation : Type where
  | add | sub | and | or | xor | slt | sltu | sll | srl | sra | mul
  | addi | addiw | andi | ori | xori | slti | sltui
  | slli | slliw | srli | srliw | srai | sraiw
  | addw | subw | sllw | srlw | sraw | mulw
  | auipc | lui | li | jal | jalr
  | beq | bne | blt | bge | bltu | bgeu
  | lbu | lb | lhu | lh | lwu | lw | ld
  | sb | sh | sw | sd
  | unknown
  deriving DecidableEq

/-- `riscv.rs` `enum Operand` (the commented-out variants are omitted,
as in the source). -/
inductive Operand : Type where
  | nothing
  | reg (r : Nat)
  | immU16 (x : Nat)
  | immU32 (x : Nat)
  | immS16 (x : Int)
  | immS32 (x : Int)
  deriving DecidableEq

/-- `riscv.rs` `Operand::is_zero`. -/
def Operand.isZero : Operand → Bool
  | .reg r => r == 0
  | .immU16 x => x == 0
  | .immU32 x => x == 0
  | .immS16 x => x == 0
  | .immS32 x => x == 0
  | _ => false

/-- `riscv.rs` `Operand::is_register` (the register constant compared against). -/
def Operand.isRegister (o : Operand) (reg : Nat) : Bool :=
  match o with
  | .reg r => r == reg
  | _ => false

/-- `riscv.rs` `Operand::into_expr`. -/
def Operand.intoExpr : Operand → Expr
  | .reg r => .register (regName r)
  | .immU16 x => .constant (x : Int)
  | .immU32 x => .constant (x : Int)
  | .immS16 x => .constant x
  | .immS32 x => .constant x
  | _ => .nop

/-- `riscv.rs` `struct Instruction`. -/
structure Instruction : Type where
  operation : Operation
  rd : Operand
  rs1 : Operand
  rs2 : Operand
  rs3 : Operand
  imm : Operand
  offset : Nat
  insSize : Nat
  deriving DecidableEq

/-- `riscv.rs` field extractor `opcode` (`ins & 0x7f`). -/
def opcodeF (ins : Nat) : Nat := ins &&& 0x7f

/-- `riscv.rs` field extractor `rd` (`(ins >> 7) & 0b11111`). -/
def rdF (ins : Nat) : Nat := (ins >>> 7) &&& 0b11111

/-- `riscv.rs` field extractor `rs1`. -/
def rs1F (ins : Nat) : Nat := (ins >>> 15) &&& 0b11111

/-- `riscv.rs` field extractor `rs2`. -/
def rs2F (ins : Nat) : Nat := (ins >>> 20) &&& 0b11111

/-- `riscv.rs` field extractor `funct3`. -/
def funct3F (ins : Nat) : Nat := (ins >>> 12) &&& 0b111

/-- `riscv.rs` field extractor `funct7` (`ins >> 25`, u32 shift). -/
def funct7F (ins : Nat) : Nat := (ins % 2^32) >>> 25

/-- `riscv.rs` `imm20`: `(ins as i32) >> 12` (arithmetic). -/
def imm20F (ins : Nat) : Int := Baretk.sar (Baretk.toI32 ins) 12

/-- `riscv.rs` `shamt`. -/
def shamtF (ins : Nat) : Nat := (ins >>> 20) &&& 0b11111

/-- `riscv.rs` `jimm20`: note the source zero-extends bit 31 (the
`bextr(31,31) as i32` value is only 0 or 1 before the shift). -/
def jimm20F (ins : Nat) : Int :=
  Baretk.toI32 ((Baretk.intToU32 ((Baretk.bextrU32 ins 31 31 : Int) <<< 20)) |||
    (Baretk.bextrU32 ins 30 21 <<< 1) |||
    (Baretk.bextrU32 ins 20 20 <<< 11) |||
    (Baretk.bextrU32 ins 19 12 <<< 12))

/-- `riscv.rs` `branch` (same zero-extension remark as `jimm20`). -/
def branchF (ins : Nat) : Int :=
  Baretk.toI32 ((Baretk.intToU32 ((Baretk.bextrU32 ins 31 31 : Int) <<< 12)) |||
    (Baretk.bextrU32 ins 30 25 <<< 5) |||
    (Baretk.bextrU32 ins 11 8 <<< 1) |||
    (Baretk.bextrU32 ins 7 7 <<< 11))

/-- `riscv.rs` `imm12`: `(ins as i32) >> 20`. -/
def imm12F (ins : Nat) : Int := Baretk.sar (Baretk.toI32 ins) 20

/-- `riscv.rs` `imm12_s`: `(((ins as i32).bextr(31,25) << 11) as u32 | ins.bextr(11,7)) as i32`. -/
def imm12sF (ins : Nat) : Int :=
  Baretk.toI32 ((Baretk.intToU32 (Baretk.sbextrI32 ins 31 25 <<< 11)) |||
    Baretk.bextrU32 ins 11 7)

/-- `riscv.rs` `csr`. -/
def csrF (ins : Nat) : Nat := Baretk.bextrU32 ins 31 20

/-- `riscv.rs` `instr_op_rd_rs1_rs2`. -/
def instrOpRdRs1Rs2 (op : Operation) (ins : Nat) (offset : Nat) (insSize : Nat) : Instruction :=
  { operation := op, rd := .reg (rdF ins), rs1 := .reg (rs1F ins), rs2 := .reg (rs2F ins),
    rs3 := .nothing, imm := .nothing, offset := offset, insSize := insSize }

/-- `riscv.rs` `instr_op_rd_rs1_imm12`. -/
def instrOpRdRs1Imm12 (op : Operation) (ins : Nat) (offset : Nat) (insSize : Nat) : Instruction :=
  { operation := op, rd := .reg (rdF ins), rs1 := .reg (rs1F ins), rs2 := .nothing,
    rs3 := .nothing, imm := .immS32 (imm12F ins), offset := offset, insSize := insSize }

/-- `riscv.rs` `instr_op_rs1_rs2_imm12_s`. -/
def instrOpRs1Rs2Imm12s (op : Operation) (ins : Nat) (offset : Nat) (insSize : Nat) : Instruction :=
  { operation := op, rd := .nothing, rs1 := .reg (rs1F ins), rs2 := .reg (rs2F ins),
    rs3 := .nothing, imm := .immS32 (imm12sF ins), offset := offset, insSize := insSize }

/-- `riscv.rs` `instr_op_rd_rs1_shamt`. -/
def instrOpRdRs1Shamt (op : Operation) (ins : Nat) (offset : Nat) (insSize : Nat) : Instruction :=
  { operation := op, rd := .reg (rdF ins), rs1 := .reg (rs1F ins), rs2 := .nothing,
    rs3 := .nothing, imm := .immU32 (shamtF ins), offset := offset, insSize := insSize }

/-- `riscv.rs` `instr_op_rd_imm20`. -/
def instrOpRdImm20 (op : Operation) (ins : Nat) (offset : Nat) : Instruction :=
  { operation := op, rd := .reg (rdF ins), rs1 := .nothing, rs2 := .nothing,
    rs3 := .nothing, imm := .immS32 (imm20F ins), offset := offset, insSize := 4 }

/-- `riscv.rs` `instr_op_rd_jimm20`. -/
def instrOpRdJimm20 (op : Operation) (ins : Nat) (offset : Nat) : Instruction :=
  { operation := op, rd := .reg (rdF ins), rs1 := .nothing, rs2 := .nothing,
    rs3 := .nothing, imm := .immS32 (jimm20F ins), offset := offset, insSize := 4 }

/-- `riscv.rs` `instr_op_rs1_rs2_branch`. -/
def instrOpRs1Rs2Branch (op : Operation) (ins : Nat) (offset : Nat) : Instruction :=
  { operation := op, rd := .nothing, rs1 := .reg (rs1F ins), rs2 := .reg (rs2F ins),
    rs3 := .nothing, imm := .immS32 (branchF ins), offset := offset, insSize := 4 }

/-- `riscv.rs` `instr_op_rs1_csr`. -/
def instrOpRs1Csr (op : Operation) (ins : Nat) (offset : Nat) : Instruction :=
  { operation := op, rd := .reg (rdF ins), rs1 := .reg (rs1F ins), rs2 := .nothing,
    rs3 := .nothing, imm := .immU32 (csrF ins), offset := offset, insSize := 4 }

/-- `riscv.rs` `disassemble_csrrw` — note the source passes `Operation::Sd`. -/
def disassembleCsrrw (ins offset : Nat) : Instruction := instrOpRs1Csr .sd ins offset

/-- `riscv.rs` `disassemble_32`: decode one 32-bit RISC-V word.  The
`disassemble_xxx` one-liner wrappers of the source are inlined into the
corresponding match arms (each wrapper only applies a builder). -/
def disassemble32 (ins offset : Nat) : Option Instruction :=
  match opcodeF ins with
  | 0b0110111 => some (instrOpRdImm20 .lui ins offset)
  | 0b0010111 => some (instrOpRdImm20 .auipc ins offset)
  | 0b1101111 => some (instrOpRdJimm20 .jal ins offset)
  | 0b1100111 => some (instrOpRdRs1Imm12 .jalr ins offset 4)
  | 0b1100011 =>
    match funct3F ins with
    | 0b000 => some (instrOpRs1Rs2Branch .beq ins offset)
    | 0b001 => some (instrOpRs1Rs2Branch .bne ins offset)
    | 0b100 => some (instrOpRs1Rs2Branch .blt ins offset)
    | 0b101 => some (instrOpRs1Rs2Branch .bge ins offset)
    | 0b110 => some (instrOpRs1Rs2Branch .bltu ins offset)
    | 0b111 => some (instrOpRs1Rs2Branch .bgeu ins offset)
    | _ => none
  | 0b0000011 =>
    match funct3F ins with
    | 0b000 => some (instrOpRdRs1Imm12 .lb ins offset 4)
    | 0b001 => some (instrOpRdRs1Imm12 .lh ins offset 4)
    | 0b010 => some (instrOpRdRs1Imm12 .lw ins offset 4)
    | 0b011 => some (instrOpRdRs1Imm12 .ld ins offset 4)
    | 0b100 => some (instrOpRdRs1Imm12 .lbu ins offset 4)
    | 0b101 => some (instrOpRdRs1Imm12 .lhu ins offset 4)
    | 0b110 => some (instrOpRdRs1Imm12 .lwu ins offset 4)
    | _ => none
  | 0b0100011 =>
    match funct3F ins with
    | 0b000 => some (instrOpRs1Rs2Imm12s .sb ins offset 4)
    | 0b001 => some (instrOpRs1Rs2Imm12s .sh ins offset 4)
    | 0b010 => some (instrOpRs1Rs2Imm12s .sw ins offset 4)
    | 0b011 => some (instrOpRs1Rs2Imm12s .sd ins offset 4)
    | _ => none
  | 0b0010011 =>
    match funct3F ins with
    | 0b000 => some (instrOpRdRs1Imm12 .addi ins offset 4)
    | 0b001 => some (instrOpRdRs1Shamt .slli ins offset 4)
    | 0b010 => some (instrOpRdRs1Imm12 .slti ins offset 4)
    | 0b011 => some (instrOpRdRs1Imm12 .sltui ins offset 4)
    | 0b100 => some (instrOpRdRs1Imm12 .xori ins offset 4)
    | 0b101 =>
      match funct7F ins with
      | 0b0000000 => some (instrOpRdRs1Shamt .srli ins offset 4)
      | 0b0100000 => some (instrOpRdRs1Shamt .srai ins offset 4)
      | _ => none
    | 0b110 => some (instrOpRdRs1Imm12 .ori ins offset 4)
    | 0b111 => some (instrOpRdRs1Imm12 .andi ins offset 4)
    | _ => none
  | 0b0011011 =>
    match funct3F ins with
    | 0b000 => some (instrOpRdRs1Imm12 .addiw ins offset 4)
    | 0b001 => some (instrOpRdRs1Shamt .slliw ins offset 4)
    | 0b101 =>
      match funct7F ins with
      | 0b0000000 => some (instrOpRdRs1Shamt .srliw ins offset 4)
      | 0b0100000 => some (instrOpRdRs1Shamt .sraiw ins offset 4)
      | _ => none
    | _ => none
  | 0b0110011 =>
    match funct3F ins with
    | 0b000 =>
      match funct7F ins with
      | 0b0000000 => some (instrOpRdRs1Rs2 .add ins offset 4)
      | 0b0000001 => some (instrOpRdRs1Rs2 .mul ins offset 4)
      | 0b0100000 => some (instrOpRdRs1Rs2 .sub ins offset 4)
      | _ => none
    | 0b001 => some (instrOpRdRs1Rs2 .sll ins offset 4)
    | 0b010 => some (instrOpRdRs1Rs2 .slt ins offset 4)
    | 0b011 => some (instrOpRdRs1Rs2 .sltu ins offset 4)
    | 0b100 => some (instrOpRdRs1Rs2 .xor ins offset 4)
    | 0b101 =>
      match funct7F ins with
      | 0b0000000 => some (instrOpRdRs1Rs2 .srl ins offset 4)
      | 0b0100000 => some (instrOpRdRs1Rs2 .sra ins offset 4)
      | _ => none
    | 0b110 => some (instrOpRdRs1Rs2 .or ins offset 4)
    | 0b111 => some (instrOpRdRs1Rs2 .and ins offset 4)
    | _ => none
  | 0b0111011 =>
    match funct3F ins with
    | 0b000 =>
      match funct7F ins with
      | 0b0000000 => some (instrOpRdRs1Rs2 .addw ins offset 4)
      | 0b0000001 => some (instrOpRdRs1Rs2 .mulw ins offset 4)
      | 0b0100000 => some (instrOpRdRs1Rs2 .subw ins offset 4)
      | _ => none
    | 0b001 => some (instrOpRdRs1Rs2 .sllw ins offset 4)
    | 0b101 =>
      match funct7F ins with
      | 0b0000000 => some (instrOpRdRs1Rs2 .srlw ins offset 4)
      | 0b0100000 => some (instrOpRdRs1Rs2 .sraw ins offset 4)
      | _ => none
    | _ => none
  | 0b1110011 =>
    match funct3F ins with
    | 0b001 => some (disassembleCsrrw ins offset)
    | _ => none
  | _ => none

/-- `riscv.rs` `rd_rs2_p` (`(ins >> 2) & 0b111`). -/
def rdRs2P (ins : Nat) : Nat := (ins >>> 2) &&& 0b111

/-- `riscv.rs` `rs1_p`. -/
def rs1P (ins : Nat) : Nat := (ins >>> 7) &&& 0b111

/-- `riscv.rs` `c_rs2`. -/
def cRs2 (ins : Nat) : Nat := (ins >>> 2) &&& 0b11111

/-- `riscv.rs` `c_uimm7`. -/
def cUimm7 (ins : Nat) : Nat :=
  ((Baretk.bextrU16 ins 6 5 <<< 2) % 2^16) |||
  ((Baretk.bextrU16 ins 12 10 <<< 3) % 2^16) |||
  ((Baretk.bextrU16 ins 5 4 <<< 6) % 2^16)

/-- `riscv.rs` `c_imm6`: `(ins.bextr(6,2) as i16) | (sins.bextr(12,11) << 4)` where
`sins = ins as i16`; the i16 bitwise-or is modelled on the u16 bit patterns. -/
def cImm6 (ins : Nat) : Int :=
  Baretk.toI16 (Baretk.bextrU16 ins 6 2 |||
    Baretk.intToU16 (Baretk.sbextrI16 ins 12 11 <<< 4))

/-- `riscv.rs` `c_uimm8sp`. -/
def cUimm8sp (ins : Nat) : Nat :=
  ((Baretk.bextrU16 ins 6 4 <<< 2) % 2^16) |||
  ((Baretk.bextrU16 ins 3 2 <<< 6) % 2^16) |||
  ((Baretk.bextrU16 ins 12 12 <<< 5) % 2^16)

/-- `riscv.rs` `c_uimm8sp_s`. -/
def cUimm8spS (ins : Nat) : Nat :=
  ((Baretk.bextrU16 ins 12 9 <<< 2) % 2^16) |||
  ((Baretk.bextrU16 ins 8 7 <<< 6) % 2^16)

/-- `riscv.rs` `c_bimm9`: the source casts `ins.bextr(12,12)` (0 or 1) to i16,
shifts by 8 and casts back to u16, so bit 12 is not sign-extended here. -/
def cBimm9 (ins : Nat) : Int :=
  Baretk.toI16 (((Baretk.bextrU16 ins 12 12 <<< 8) % 2^16) |||
    ((Baretk.bextrU16 ins 11 10 <<< 3) % 2^16) |||
    ((Baretk.bextrU16 ins 6 5 <<< 6) % 2^16) |||
    ((Baretk.bextrU16 ins 4 3 <<< 1) % 2^16) |||
    ((Baretk.bextrU16 ins 2 2 <<< 5) % 2^16))

/-- `riscv.rs` `disassemble_c_lw` (rd', rs1' are offset by `Register::S0.0 = 8`). -/
def disassembleCLw (ins offset : Nat) : Instruction :=
  { operation := .lw, rd := .reg (rdRs2P ins + 8), rs1 := .reg (rs1P ins + 8),
    rs2 := .nothing, rs3 := .nothing, imm := .immU16 (cUimm7 ins),
    offset := offset, insSize := 2 }

/-- `riscv.rs` `disassemble_c_li`. -/
def disassembleCLi (ins offset : Nat) : Instruction :=
  { operation := .li, rd := .reg (rdF ins), rs1 := .nothing, rs2 := .nothing,
    rs3 := .nothing, imm := .immS16 (cImm6 ins), offset := offset, insSize := 2 }

/-- `riscv.rs` `disassemble_c_lui`: note the `ins.bextr(6,2) << 12` is a u16
shift, wrapping mod 2^16, before the cast to u32. -/
def disassembleCLui (ins offset : Nat) : Instruction :=
  { operation := .lui, rd := .reg (rdF ins), rs1 := .nothing, rs2 := .nothing,
    rs3 := .nothing,
    imm := .immU32 ((Baretk.bextrU16 ins 12 11 <<< 17) |||
      ((Baretk.bextrU16 ins 6 2 <<< 12) % 2^16)),
    offset := offset, insSize := 2 }

/-- `riscv.rs` `disassemble_c_sub` / `c_xor` / `c_or` / `c_and` /
`c_subw` / `c_addw` share this shape. -/
def disassembleCAlu (op : Operation) (ins offset : Nat) : Instruction :=
  { operation := op, rd := .reg (rdRs2P ins + 8), rs1 := .reg (rdRs2P ins + 8),
    rs2 := .reg (rs1P ins + 8), rs3 := .nothing, imm := .nothing,
    offset := offset, insSize := 2 }

/-- `riscv.rs` `disassemble_c_addi`. -/
def disassembleCAddi (ins offset : Nat) : Instruction :=
  { operation := .addi, rd := .reg (rdF ins), rs1 := .reg (rdF ins), rs2 := .nothing,
    rs3 := .nothing, imm := .immS16 (cImm6 ins), offset := offset, insSize := 2 }

/-- `riscv.rs` `disassemble_c_jr` (JALR with rd = x0, imm = 0). -/
def disassembleCJr (ins offset : Nat) : Instruction :=
  { operation := .jalr, rd := .reg 0, rs1 := .reg (rdF ins), rs2 := .nothing,
    rs3 := .nothing, imm := .immS16 0, offset := offset, insSize := 2 }

/-- `riscv.rs` `disassemble_c_jalr` (JALR with rd = ra). -/
def disassembleCJalr (ins offset : Nat) : Instruction :=
  { operation := .jalr, rd := .reg 1, rs1 := .reg (rdF ins), rs2 := .nothing,
    rs3 := .nothing, imm := .immS16 0, offset := offset, insSize := 2 }

/-- `riscv.rs` `disassemble_c_mv` (ADD rd, x0, rs2). -/
def disassembleCMv (ins offset : Nat) : Instruction :=
  { operation := .add, rd := .reg (rdF ins), rs1 := .reg 0, rs2 := .reg (cRs2 ins),
    rs3 := .nothing, imm := .nothing, offset := offset, insSize := 2 }

/-- `riscv.rs` `disassemble_c_add`. -/
def disassembleCAdd (ins offset : Nat) : Instruction :=
  { operation := .add, rd := .reg (rdF ins), rs1 := .reg (rdF ins), rs2 := .reg (cRs2 ins),
    rs3 := .nothing, imm := .nothing, offset := offset, insSize := 2 }

/-- `riscv.rs` `disassemble_c_j`: bit 12 is sign-extended (i16 `bextr`)
before the wrapping u16 shift. -/
def disassembleCJ (ins offset : Nat) : Instruction :=
  { operation := .jal, rd := .reg 0, rs1 := .nothing, rs2 := .nothing, rs3 := .nothing,
    imm := .immS16 (Baretk.toI16
      (Baretk.intToU16 (Baretk.sbextrI16 ins 12 12 <<< 11) |||
       ((Baretk.bextrU16 ins 11 11 <<< 4) % 2^16) |||
       ((Baretk.bextrU16 ins 10 9 <<< 8) % 2^16) |||
       ((Baretk.bextrU16 ins 8 8 <<< 10) % 2^16) |||
       ((Baretk.bextrU16 ins 7 7 <<< 6) % 2^16) |||
       ((Baretk.bextrU16 ins 6 6 <<< 7) % 2^16) |||
       ((Baretk.bextrU16 ins 5 3 <<< 1) % 2^16) |||
       ((Baretk.bextrU16 ins 2 2 <<< 5) % 2^16))),
    offset := offset, insSize := 2 }

/-- `riscv.rs` `disassemble_c_lwsp` (LW rd, [sp + uimm]). -/
def disassembleCLwsp (ins offset : Nat) : Instruction :=
  { operation := .lw, rd := .reg (rdF ins), rs1 := .reg 2, rs2 := .nothing,
    rs3 := .nothing, imm := .immU16 (cUimm8sp ins), offset := offset, insSize := 2 }

/-- `riscv.rs` `disassemble_c_swsp` (SW rs2, [sp + uimm]). -/
def disassembleCSwsp (ins offset : Nat) : Instruction :=
  { operation := .sw, rd := .nothing, rs1 := .reg (cRs2 ins), rs2 := .reg 2,
    rs3 := .nothing, imm := .immU16 (cUimm8spS ins), offset := offset, insSize := 2 }

/-- `riscv.rs` `disassemble_c_beqz`. -/
def disassembleCBeqz (ins offset : Nat) : Instruction :=
  { operation := .beq, rd := .nothing, rs1 := .reg (rs1P ins + 8), rs2 := .reg 0,
    rs3 := .nothing, imm := .immS16 (cBimm9 ins), offset := offset, insSize := 2 }

/-- `riscv.rs` `disassemble_c_bnez`. -/
def disassembleCBnez (ins offset : Nat) : Instruction :=
  { operation := .bne, rd := .nothing, rs1 := .reg (rs1P ins + 8), rs2 := .reg 0,
    rs3 := .nothing, imm := .immS16 (cBimm9 ins), offset := offset, insSize := 2 }

/-- `riscv.rs` `disassemble_16`: decode one 16-bit compressed word
(the `match rd(..) { _ => .. }` in the funct=011 arm of the source always
takes `disassemble_c_lui`, as written). -/
def disassemble16 (ins offset : Nat) : Option Instruction :=
  match ins &&& 3 with
  | 0b00 =>
    match (ins >>> 13) &&& 7 with
    | 0b010 => some (disassembleCLw ins offset)
    | _ => none
  | 0b01 =>
    match (ins >>> 13) &&& 7 with
    | 0b000 => some (disassembleCAddi ins offset)
    | 0b010 => some (disassembleCLi ins offset)
    | 0b011 => some (disassembleCLui ins offset)
    | 0b100 =>
      match Baretk.bextrU16 ins 11 10 with
      | 0b11 =>
        match Baretk.bextrU16 ins 12 12 with
        | 0b0 =>
          match Baretk.bextrU16 ins 6 5 with
          | 0b00 => some (disassembleCAlu .sub ins offset)
          | 0b01 => some (disassembleCAlu .xor ins offset)
          | 0b10 => some (disassembleCAlu .or ins offset)
          | 0b11 => some (disassembleCAlu .and ins offset)
          | _ => none
        | 0b1 =>
          match Baretk.bextrU16 ins 6 5 with
          | 0b00 => some (disassembleCAlu .subw ins offset)
          | 0b01 => some (disassembleCAlu .addw ins offset)
          | _ => none
        | _ => none
      | _ => none
    | 0b101 => some (disassembleCJ ins offset)
    | 0b110 => some (disassembleCBeqz ins offset)
    | 0b111 => some (disassembleCBnez ins offset)
    | _ => none
  | 0b10 =>
    match (ins >>> 13) &&& 7 with
    | 0b010 => some (disassembleCLwsp ins offset)
    | 0b100 =>
      match Baretk.bextrU16 ins 12 11 with
      | 0x0 => if cRs2 ins == 0 then some (disassembleCJr ins offset)
               else some (disassembleCMv ins offset)
      | 0x1 => if cRs2 ins == 0 then some (disassembleCJalr ins offset)
               else some (disassembleCAdd ins offset)
      | _ => none
    | 0b110 => some (disassembleCSwsp ins offset)
    | _ => none
  | _ => none

/-- The literal `0xfffffffffff00000u64 as i64` appearing in the AUIPC lift. -/
def auipcMask : Int := Baretk.toI64 0xfffffffffff00000

/-- `riscv.rs` `Instruction::into_expr`: lift one decoded RISC-V
instruction to the expression IR.  Operations the lifter does not lower
(including the commented-out `Addiw` arm, `Bltu`, `Bgeu` and `Unknown`,
which fall to the `_` arm of the source) produce `Expr.nop`.  Note the
source's `Lb` arm with a zero immediate dereferences `self.rs2` (not
`rs1`). -/
def Instruction.intoExpr (i : Instruction) : Expr :=
  match i.operation with
  | .add => .store i.rd.intoExpr (.binary OP_ADD i.rs1.intoExpr i.rs2.intoExpr)
  | .sub => .store i.rd.intoExpr (.binary OP_SUB i.rs1.intoExpr i.rs2.intoExpr)
  | .xor => .store i.rd.intoExpr (.binary OP_XOR i.rs1.intoExpr i.rs2.intoExpr)
  | .and => .store i.rd.intoExpr (.binary OP_AND i.rs1.intoExpr i.rs2.intoExpr)
  | .or => .store i.rd.intoExpr (.binary OP_OR i.rs1.intoExpr i.rs2.intoExpr)
  | .slt => .nop
  | .sltu => .nop
  | .sll => .nop
  | .srl => .nop
  | .sra => .nop
  | .mul => .store i.rd.intoExpr (.binary OP_MUL i.rs1.intoExpr i.rs2.intoExpr)
  | .addi => .store i.rd.intoExpr (.binary OP_ADD i.rs1.intoExpr i.imm.intoExpr)
  | .xori => .store i.rd.intoExpr (.binary OP_XOR i.rs1.intoExpr i.imm.intoExpr)
  | .ori => .store i.rd.intoExpr (.binary OP_OR i.rs1.intoExpr i.imm.intoExpr)
  | .andi => .store i.rd.intoExpr (.binary OP_AND i.rs1.intoExpr i.imm.intoExpr)
  | .slti => .nop
  | .sltui => .nop
  | .slli => .nop
  | .srli => .nop
  | .srai => .nop
  | .slliw => .nop
  | .srliw => .nop
  | .sraiw => .nop
  | .addw => .nop
  | .subw => .nop
  | .sllw => .nop
  | .srlw => .nop
  | .sraw => .nop
  | .mulw => .nop
  | .lbu => .nop
  | .lhu => .nop
  | .lwu => .nop
  | .lb =>
    if i.imm.isZero then
      .store i.rd.intoExpr (.dereference 1 i.rs2.intoExpr)
    else
      .store i.rd.intoExpr (.dereference 1 (.binary OP_ADD i.rs1.intoExpr i.imm.intoExpr))
  | .lh =>
    if i.imm.isZero then
      .store i.rd.intoExpr (.dereference 2 i.rs1.intoExpr)
    else
      .store i.rd.intoExpr (.dereference 2 (.binary OP_ADD i.rs1.intoExpr i.imm.intoExpr))
  | .lw =>
    if i.imm.isZero then
      .store i.rd.intoExpr (.dereference 4 i.rs1.intoExpr)
    else
      .store i.rd.intoExpr (.dereference 4 (.binary OP_ADD i.rs1.intoExpr i.imm.intoExpr))
  | .ld =>
    if i.imm.isZero then
      .store i.rd.intoExpr (.dereference 8 i.rs1.intoExpr)
    else
      .store i.rd.intoExpr (.dereference 8 (.binary OP_ADD i.rs1.intoExpr i.imm.intoExpr))
  | .sb =>
    if i.imm.isZero then
      .store (.dereference 1 i.rs2.intoExpr) i.rs1.intoExpr
    else
      .store (.dereference 1 (.binary OP_ADD i.rs2.intoExpr i.imm.intoExpr)) i.rs1.intoExpr
  | .sh =>
    if i.imm.isZero then
      .store (.dereference 2 i.rs2.intoExpr) i.rs1.intoExpr
    else
      .store (.dereference 2 (.binary OP_ADD i.rs2.intoExpr i.imm.intoExpr)) i.rs1.intoExpr
  | .sw =>
    if i.imm.isZero then
      .store (.dereference 4 i.rs2.intoExpr) i.rs1.intoExpr
    else
      .store (.dereference 4 (.binary OP_ADD i.rs2.intoExpr i.imm.intoExpr)) i.rs1.intoExpr
  | .sd =>
    if i.imm.isZero then
      .store (.dereference 8 i.rs2.intoExpr) i.rs1.intoExpr
    else
      .store (.dereference 8 (.binary OP_ADD i.rs2.intoExpr i.imm.intoExpr)) i.rs1.intoExpr
  | .li => .store i.rd.intoExpr i.imm.intoExpr
  | .lui => .store i.rd.intoExpr i.imm.intoExpr
  | .auipc => .store i.rd.intoExpr
      (.binary OP_ADD
        (.binary OP_AND (.register "pc") (.constant auipcMask))
        i.imm.intoExpr)
  | .jal =>
    if i.rd.isZero then
      .goto (.binary OP_ADD (.register "pc") i.imm.intoExpr)
    else if i.rd.isRegister 1 then
      .call (.binary OP_ADD (.register "pc") i.imm.intoExpr)
    else
      .special "jal" [i.rd.intoExpr, .binary OP_ADD (.register "pc") i.imm.intoExpr]
  | .jalr =>
    if i.rd.isZero then
      if i.rs1.isRegister 1 then .ret
      else .goto i.rs1.intoExpr
    else if i.rd.isRegister 1 then .call i.rs1.intoExpr
    else .special "jal" [i.rd.intoExpr, i.rs1.intoExpr]
  | .beq =>
    if i.rs2.isZero then
      .ifE (.binary OP_EQ i.rs1.intoExpr (.constant 0))
        (.goto (.binary OP_ADD (.register "pc") i.imm.intoExpr)) none
    else
      .ifE (.binary OP_EQ i.rs1.intoExpr i.rs2.intoExpr)
        (.goto (.binary OP_ADD (.register "pc") i.imm.intoExpr)) none
  | .bne =>
    if i.rs2.isZero then
      .ifE (.binary OP_NEQ i.rs1.intoExpr (.constant 0))
        (.goto (.binary OP_ADD (.register "pc") i.imm.intoExpr)) none
    else
      .ifE (.binary OP_NEQ i.rs1.intoExpr i.rs2.intoExpr)
        (.goto (.binary OP_ADD (.register "pc") i.imm.intoExpr)) none
  | .blt =>
    .ifE (.binary OP_LT i.rs1.intoExpr i.rs2.intoExpr)
      (.goto (.binary OP_ADD (.register "pc") i.imm.intoExpr)) none
  | .bge =>
    .ifE (.binary OP_GTE i.rs1.intoExpr i.rs2.intoExpr)
      (.goto (.binary OP_ADD (.register "pc") i.imm.intoExpr)) none
  | _ => .nop

/-- `riscv.rs` `disassemble_instruction`: read a halfword at `offset`
(little-endian); when its low two bits are `11` re-read a full 32-bit
word.  An out-of-bounds byte access is the source's slice panic,
modelled as `.error ()`. -/
def disassembleInstruction (bytes : List Nat) (offset : Nat) :
    Except Unit (Option Instruction) :=
  match bytes.get? offset with
  | none => .error ()
  | some b0 =>
    match bytes.get? (offset + 1) with
    | none => .error ()
    | some b1 =>
      if (b0 + b1 * 256) &&& 3 == 3 then
        match bytes.get? (offset + 2) with
        | none => .error ()
        | some b2 =>
          match bytes.get? (offset + 3) with
          | none => .error ()
          | some b3 =>
            .ok (disassemble32 (b0 + b1 * 256 + b2 * 65536 + b3 * 16777216) offset)
      else
        .ok (disassemble16 (b0 + b1 * 256) offset)

/-- The driver's Unknown placeholder of a given width. -/
def unknownIns (offset size : Nat) : Instruction :=
  { operation := .unknown, rd := .nothing, rs1 := .nothing, rs2 := .nothing,
    rs3 := .nothing, imm := .nothing, offset := offset, insSize := size }

/-- The loop body of `riscv.rs` `disassemble_riscv`, with explicit fuel. -/
def disassembleRiscvGo (bytes : List Nat) : Nat → Nat → RunRes (List Instruction)
  | 0, _ => .fuelOut
  | fuel + 1, offset =>
    if offset + 2 ≤ bytes.length then
      match disassembleInstruction bytes offset with
      | .error _ => .panicked
      | .ok (some ins) =>
        RunRes.consOk ins (disassembleRiscvGo bytes fuel (offset + ins.insSize))
      | .ok none =>
        if offset + 4 ≤ bytes.length ∧
            (((bytes.get? offset).getD 0) + ((bytes.get? (offset+1)).getD 0) * 256 +
             ((bytes.get? (offset+2)).getD 0) * 65536 +
             ((bytes.get? (offset+3)).getD 0) * 16777216) &&& 3 = 3 then
          RunRes.consOk (unknownIns offset 4) (disassembleRiscvGo bytes fuel (offset + 4))
        else
          RunRes.consOk (unknownIns offset 2) (disassembleRiscvGo bytes fuel (offset + 2))
    else
      .ok []

/-- `riscv.rs` `disassemble_riscv` applied to a section's bytes: walk
from offset 0 collecting instructions. -/
def disassembleRiscv (bytes : List Nat) : RunRes (List Instruction) :=
  disassembleRiscvGo bytes (bytes.length + 1) 0

/-- Sum of `ins_size` over an instruction list. -/
def sumSizes (l : List Instruction) : Nat := (l.map Instruction.insSize).sum

end Rv

/-! ## arm.rs: decoder -/

namespace Arm

/-- `arm.rs` `enum Operand`. -/
inductive Operand : Type where
  | regO (r s st : Nat)
  | immO (x s st : Nat)
  | regList (x : Nat)
  | psr (which state : Nat)
  | simm (x : Int)
  deriving DecidableEq

/-- `arm.rs` `enum Opcode`. -/
inductive Opcode : Type where
  | unknown
  | bx (rm : Operand)
  | b (disp : Operand)
  | bl (disp : Operand)
  | mul (rd rm rs : Operand)
  | mulA (rd rm rs rn : Operand)
  | mrs (rm psr : Operand)
  | msr (psr rm : Operand)
  | ldr (rd rn off : Operand)
  | str (rd rn off : Operand)
  | ldm (rn regs : Operand) (wb : Bool) (am : Nat)
  | stm (rn regs : Operand) (wb : Bool) (am : Nat)
  | andOp (rd rn op2 : Operand)
  | eor (rd rn op2 : Operand)
  | sub (rd rn op2 : Operand)
  | rsb (rd rn op2 : Operand)
  | add (rd rn op2 : Operand)
  | adc (rd rn op2 : Operand)
  | sbc (rd rn op2 : Operand)
  | rsc (rd rn op2 : Operand)
  | tst (rn op2 : Operand)
  | teq (rn op2 : Operand)
  | cmp (rn op2 : Operand)
  | cmn (rn op2 : Operand)
  | orr (rd rn op2 : Operand)
  | mov (rd op2 : Operand)
  | bic (rd rn op2 : Operand)
  | mvn (rd op2 : Operand)
  | swi
  deriving DecidableEq

/-- Whether an opcode is the driver's Unknown placeholder. -/
def Opcode.isUnknown : Opcode → Bool
  | .unknown => true
  | _ => false

/-- Whether an opcode is a data-processing AND. -/
def Opcode.isAnd : Opcode → Bool
  | .andOp _ _ _ => true
  | _ => false

/-- `arm.rs` `struct Instruction`. -/
structure Instruction : Type where
  opcode : Opcode
  offset : Nat
  cond : Nat
  setFlags : Bool
  insSize : Nat
  deriving DecidableEq

/-- `arm.rs` `cond` (bits 31..28). -/
def condF (x : Nat) : Nat := Baretk.bextrU32 x 31 28

/-- `arm.rs` `opcode` (bits 24..21). -/
def opcodeF (x : Nat) : Nat := Baretk.bextrU32 x 24 21

/-- `arm.rs` `op2`: operand 2 of a data-processing instruction. -/
def op2F (x : Nat) : Operand :=
  if x &&& (1 <<< 25) == 0 then
    .regO (Baretk.bextrU32 x 3 0) (Baretk.bextrU32 x 11 8) (Baretk.bextrU32 x 6 5)
  else
    .immO (Baretk.bextrU32 x 7 0) (Baretk.bextrU32 x 11 7) (Baretk.bextrU32 x 6 5)

/-- `arm.rs` `rn` (bits 19..16 as a plain register operand). -/
def rnF (x : Nat) : Operand := .regO (Baretk.bextrU32 x 19 16) 0 0

/-- `arm.rs` `rd` (bits 15..12 as a plain register operand). -/
def rdF (x : Nat) : Operand := .regO (Baretk.bextrU32 x 15 12) 0 0

/-- `arm.rs` `bl_offset`: `((x as i32).bextr(23, 0)) << 2` (signed 24-bit
field, sign-extended, times 4). -/
def blOffset (x : Nat) : Int := Baretk.sbextrI32 x 23 0 <<< 2

/-- The opcode and set-flags selection of `arm.rs`
`disassemble_arm_ins`, split into the same first-match if-chain as the
source (grouped into three helpers purely so each definition stays
small; the chain order is unchanged).  Group 1: BX, B/BL, STM/LDM,
MUL/MLA. -/
def armOpsfA (ins : Nat) : Option (Opcode × Bool) :=
  if Baretk.bextrU32 ins 27 4 == 0b000100101111111111110001 then
    some (.bx (.regO (Baretk.bextrU32 ins 3 0) 0 0), false)
  else if Baretk.bextrU32 ins 27 25 == 0b101 then
    if ins &&& (1 <<< 24) == 0 then
      some (.b (.simm (blOffset ins)), false)
    else
      some (.bl (.simm (blOffset ins)), false)
  else if Baretk.bextrU32 ins 27 25 == 0b100 then
    if ins &&& (1 <<< 20) == 0 then
      some (.stm (rnF ins) (.regList (Baretk.bextrU32 ins 15 0))
        (ins &&& (1 <<< 21) != 0) (Baretk.bextrU32 ins 24 23), false)
    else
      some (.ldm (rnF ins) (.regList (Baretk.bextrU32 ins 15 0))
        (ins &&& (1 <<< 21) != 0) (Baretk.bextrU32 ins 24 23), false)
  else if Baretk.bextrU32 ins 27 22 == 0b000000 then
    if ins &&& (1 <<< 21) != 0 then
      some (.mulA (.regO (Baretk.bextrU32 ins 19 16) 0 0)
        (.regO (Baretk.bextrU32 ins 15 12) 0 0) (.regO (Baretk.bextrU32 ins 11 8) 0 0)
        (.regO (Baretk.bextrU32 ins 3 0) 0 0), ins &&& (1 <<< 20) != 0)
    else
      some (.mul (.regO (Baretk.bextrU32 ins 19 16) 0 0)
        (.regO (Baretk.bextrU32 ins 15 12) 0 0) (.regO (Baretk.bextrU32 ins 11 8) 0 0),
        ins &&& (1 <<< 20) != 0)
  else none

/-- Group 2 of the `disassemble_arm_ins` chain: MRS/MSR forms and SWI. -/
def armOpsfB (ins : Nat) : Option (Opcode × Bool) :=
  if Baretk.bextrU32 ins 27 23 == 0b00010 && Baretk.bextrU32 ins 21 16 == 0b001111 &&
      Baretk.bextrU32 ins 11 0 == 0 then
    some (.mrs (.regO (Baretk.bextrU32 ins 15 12) 0 0)
      (.psr (if ins &&& (1 <<< 22) != 0 then 1 else 0) 0), false)
  else if Baretk.bextrU32 ins 27 23 == 0b00010 && Baretk.bextrU32 ins 21 12 == 0b1010011111 &&
      Baretk.bextrU32 ins 11 4 == 0 then
    some (.msr (.psr (if ins &&& (1 <<< 22) != 0 then 1 else 0) 0)
      (.regO (Baretk.bextrU32 ins 3 0) 0 0), false)
  else if Baretk.bextrU32 ins 27 23 == 0b00010 && Baretk.bextrU32 ins 21 12 == 0b1000011111 &&
      Baretk.bextrU32 ins 11 4 == 0 then
    some (.msr (.psr (if ins &&& (1 <<< 22) != 0 then 1 else 0) 2)
      (.regO (Baretk.bextrU32 ins 3 0) 0 0), false)
  else if Baretk.bextrU32 ins 27 23 == 0b00010 && Baretk.bextrU32 ins 21 12 == 0b1010001111 then
    some (.msr (.psr (if ins &&& (1 <<< 22) != 0 then 1 else 0) 1)
      (.regO (Baretk.bextrU32 ins 3 0) 0 0), false)
  else if Baretk.bextrU32 ins 27 23 == 0b00110 && Baretk.bextrU32 ins 21 12 == 0b1010001111 then
    some (.msr (.psr (if ins &&& (1 <<< 22) != 0 then 1 else 0) 1)
      (.immO (Baretk.bextrU32 ins 7 0) (Baretk.bextrU32 ins 11 8) 0), false)
  else if Baretk.bextrU32 ins 27 24 == 0b1111 then
    some (.swi, false)
  else none

/-- Group 3 of the `disassemble_arm_ins` chain: LDR/STR and the
data-processing block. -/
def armOpsfC (ins : Nat) : Option (Opcode × Bool) :=
  if Baretk.bextrU32 ins 27 26 == 0b01 then
    if ins &&& (1 <<< 20) == 0 then
      some (.str (rdF ins) (rnF ins)
        (if ins &&& (1 <<< 25) == 0 then Operand.immO (Baretk.bextrU32 ins 11 0) 0 0
         else Operand.regO (Baretk.bextrU32 ins 3 0) (Baretk.bextrU32 ins 11 4) 0), false)
    else
      some (.ldr (rdF ins) (rnF ins)
        (if ins &&& (1 <<< 25) == 0 then Operand.immO (Baretk.bextrU32 ins 11 0) 0 0
         else Operand.regO (Baretk.bextrU32 ins 3 0) (Baretk.bextrU32 ins 11 4) 0), false)
  else if Baretk.bextrU32 ins 27 26 == 0b00 then
    match opcodeF ins with
    | 0b0000 => some (.andOp (rdF ins) (rnF ins) (op2F ins), ins &&& (1 <<< 20) != 0)
    | 0b0001 => some (.eor (rdF ins) (rnF ins) (op2F ins), ins &&& (1 <<< 20) != 0)
    | 0b0010 => some (.sub (rdF ins) (rnF ins) (op2F ins), ins &&& (1 <<< 20) != 0)
    | 0b0011 => some (.rsb (rdF ins) (rnF ins) (op2F ins), ins &&& (1 <<< 20) != 0)
    | 0b0100 => some (.add (rdF ins) (rnF ins) (op2F ins), ins &&& (1 <<< 20) != 0)
    | 0b0101 => some (.adc (rdF ins) (rnF ins) (op2F ins), ins &&& (1 <<< 20) != 0)
    | 0b0110 => some (.sbc (rdF ins) (rnF ins) (op2F ins), ins &&& (1 <<< 20) != 0)
    | 0b0111 => some (.rsc (rdF ins) (rnF ins) (op2F ins), ins &&& (1 <<< 20) != 0)
    | 0b1000 => some (.tst (rnF ins) (op2F ins), ins &&& (1 <<< 20) != 0)
    | 0b1001 => some (.teq (rnF ins) (op2F ins), ins &&& (1 <<< 20) != 0)
    | 0b1010 => some (.cmp (rnF ins) (op2F ins), ins &&& (1 <<< 20) != 0)
    | 0b1011 => some (.cmn (rnF ins) (op2F ins), ins &&& (1 <<< 20) != 0)
    | 0b1100 => some (.orr (rdF ins) (rnF ins) (op2F ins), ins &&& (1 <<< 20) != 0)
    | 0b1101 => some (.mov (rdF ins) (op2F ins), ins &&& (1 <<< 20) != 0)
    | 0b1110 => some (.bic (rdF ins) (rnF ins) (op2F ins), ins &&& (1 <<< 20) != 0)
    | 0b1111 => some (.mvn (rdF ins) (op2F ins), ins &&& (1 <<< 20) != 0)
    | _ => none
  else
    none

/-- The full first-match chain (groups in source order). -/
def armOpsf (ins : Nat) : Option (Opcode × Bool) :=
  match armOpsfA ins with
  | some p => some p
  | none =>
    match armOpsfB ins with
    | some p => some p
    | none => armOpsfC ins

/-- `arm.rs` `disassemble_arm_ins`: decode one 32-bit ARM word at the
given (pre-offset) position.  Every arm of the source constructs an
instruction with the same `offset`, `cond := cond(ins)` and
`ins_size: 4`; the per-arm opcode and set-flags selection is `armOpsf`. -/
def disassembleArmIns (ins offset : Nat) : Option Instruction :=
  match armOpsf ins with
  | none => none
  | some (oc, sf) =>
    some { opcode := oc, offset := offset, cond := condF ins, setFlags := sf, insSize := 4 }

/-- The ARM driver's Unknown placeholder. -/
def unknownIns (offset : Nat) : Instruction :=
  { opcode := .unknown, offset := offset, cond := 0, setFlags := false, insSize := 4 }

/-- The loop body of `arm.rs` `disassemble_arm`, with explicit fuel.
Note `disassemble_ins` reads four bytes at `offset` (panicking when the
slice is short) and passes `address + offset` as the decoded
instruction's offset, while the Unknown placeholder records the plain
`offset`. -/
def disassembleArmGo (address : Nat) (bytes : List Nat) :
    Nat → Nat → RunRes (List Instruction)
  | 0, _ => .fuelOut
  | fuel + 1, offset =>
    if offset < bytes.length then
      match bytes.get? offset with
      | none => .panicked
      | some b0 =>
        match bytes.get? (offset + 1) with
        | none => .panicked
        | some b1 =>
          match bytes.get? (offset + 2) with
          | none => .panicked
          | some b2 =>
            match bytes.get? (offset + 3) with
            | none => .panicked
            | some b3 =>
              match disassembleArmIns (b0 + b1 * 256 + b2 * 65536 + b3 * 16777216)
                  (address + offset) with
              | some i =>
                RunRes.consOk i (disassembleArmGo address bytes fuel (offset + i.insSize))
              | none =>
                RunRes.consOk (unknownIns offset) (disassembleArmGo address bytes fuel (offset + 4))
    else
      .ok []

/-- `arm.rs` `disassemble_arm` applied to a section (its load address
and bytes). -/
def disassembleArm (address : Nat) (bytes : List Nat) : RunRes (List Instruction) :=
  disassembleArmGo address bytes (bytes.length + 1) 0

/-- Sum of `ins_size` over an ARM instruction list. -/
def sumSizes (l : List Instruction) : Nat := (l.map Instruction.insSize).sum

end Arm

/-! ## dis.rs: the common instruction convergence layer -/

namespace Dis

/-- `dis.rs` `enum Operand`. -/
inductive Operand : Type where
  | nothing
  | register (name : String)
  | memory (base index : String) (offset : Int) (size : Nat)
  | immediate (i : Int)
  deriving DecidableEq

/-- `dis.rs` `struct Instruction` (the convergence struct). -/
structure Instruction : Type where
  opcode : String
  operands : List Operand
  flags : Nat
  deriving DecidableEq

end Dis

/-! ## x86.rs: decoder, printer and convergence conversion -/

namespace X86

/-- `x86.rs` `enum Operation`. -/
inductive Operation : Type where
  | add | adc | sub | sbb | and | or | xor | cmp | test | mov
  | nop | push | pop | ret | call | unknown
  deriving DecidableEq

/-- `x86.rs` `enum Operand`. -/
inductive Operand : Type where
  | nothing
  | immU8 (x : Nat)
  | immU32 (x : Nat)
  | immS8 (x : Int)
  | reg8 (x : Nat)
  | reg8H (x : Nat)
  | reg16 (x : Nat)
  | reg32 (x : Nat)
  | reg64 (x : Nat)
  | ptrRegByte (reg : Nat) (offset : Int)
  | ptrRegRegByte (base offset mul : Nat)
  | ptrRegRegWord (base offset mul : Nat)
  | ptrRegRegDword (base offset mul : Nat)
  | ptrRegRegQword (base offset mul : Nat)
  | ptrRegWord (reg : Nat) (offset : Int)
  | ptrRegDword (reg : Nat) (offset : Int)
  | ptrRegQword (reg : Nat) (offset : Int)
  | ptrRelByte (rel : Nat)
  | ptrRelWord (rel : Nat)
  | ptrRelDword (rel : Nat)
  | ptrRelQword (rel : Nat)
  deriving DecidableEq

/-- `x86.rs` `REG_NAMES` (16 rows × 5 size slots). -/
def regNames : List (List String) :=
  [["al",   "ax",   "eax",  "rax", "al"],
   ["cl",   "cx",   "ecx",  "rcx", "cl"],
   ["dl",   "dx",   "edx",  "rdx", "dl"],
   ["bl",   "bx",   "ebx",  "rbx", "bl"],
   ["spl",  "sp",   "esp",  "rsp", "ah"],
   ["bpl",  "bp",   "ebp",  "rbp", "ch"],
   ["sil",  "si",   "esi",  "rsi", "dh"],
   ["dil",  "di",   "edi",  "rdi", "bh"],
   ["r8l",  "r8w",  "r8d",  "r8",  "r8l"],
   ["r9l",  "r9w",  "r9d",  "r9",  "r9l"],
   ["r10l", "r10w", "r10d", "r10", "r10l"],
   ["r11l", "r11w", "r11d", "r11", "r11l"],
   ["r12l", "r12w", "r12d", "r12", "r12l"],
   ["r13l", "r13w", "r13d", "r13", "r13l"],
   ["r14l", "r14w", "r14d", "r14", "r14l"],
   ["r15l", "r15w", "r15d", "r15", "r15l"]]

/-- `x86.rs` `print_reg`. -/
def printReg (s x : Nat) : String := (((regNames.get? x).getD []).get? s).getD "?"

/-- Lowercase hexadecimal digits of a number (Rust `{:x}`). -/
def hexStr (n : Nat) : String := String.mk (Nat.toDigits 16 n)

/-- Hexadecimal padded with leading zeros to a width (Rust `{:0Nx}`). -/
def hexPad (w n : Nat) : String :=
  let s := Nat.toDigits 16 n
  String.mk (List.replicate (w - s.length) '0' ++ s)

/-- `x86.rs` `Operand::print`. -/
def Operand.print : Operand → String
  | .immU8 x => "0x" ++ hexStr x
  | .immU32 x => "0x" ++ hexStr x
  | .immS8 x => toString x
  | .reg8 x => printReg 0 x
  | .reg8H x => printReg 4 x
  | .reg16 x => printReg 1 x
  | .reg32 x => printReg 2 x
  | .reg64 x => printReg 3 x
  | .ptrRegByte reg offset =>
    if offset == 0 then "BYTE PTR [" ++ printReg 3 reg ++ "]"
    else "BYTE PTR [" ++ printReg 3 reg ++ Baretk.i32Sign offset ++ "0x" ++
      hexPad 2 offset.natAbs ++ "]"
  | .ptrRegWord reg offset =>
    if offset == 0 then "WORD PTR [" ++ printReg 3 reg ++ "]"
    else "WORD PTR [" ++ printReg 3 reg ++ Baretk.i32Sign offset ++ "0x" ++
      hexPad 2 offset.natAbs ++ "]"
  | .ptrRegDword reg offset =>
    if offset == 0 then "DWORD PTR [" ++ printReg 3 reg ++ "]"
    else "DWORD PTR [" ++ printReg 3 reg ++ Baretk.i32Sign offset ++ "0x" ++
      hexPad 2 offset.natAbs ++ "]"
  | .ptrRegQword reg offset =>
    if offset == 0 then "QWORD PTR [" ++ printReg 3 reg ++ "]"
    else "QWORD PTR [" ++ printReg 3 reg ++ Baretk.i32Sign offset ++ "0x" ++
      hexPad 4 offset.natAbs ++ "]"
  | .ptrRelByte rel => "BYTE PTR [rip+0x" ++ hexPad 8 rel ++ "]"
  | .ptrRelWord rel => "WORD PTR [rip+0x" ++ hexPad 8 rel ++ "]"
  | .ptrRelDword rel => "DWORD PTR [rip+0x" ++ hexPad 8 rel ++ "]"
  | .ptrRelQword rel => "QWORD PTR [rip+0x" ++ hexPad 8 rel ++ "]"
  | .ptrRegRegByte base offset mul =>
    if mul == 1 then "BYTE PTR [" ++ printReg 3 base ++ "+" ++ printReg 3 offset ++ "]"
    else "BYTE PTR [" ++ printReg 3 base ++ "+" ++ printReg 3 offset ++ "*" ++
      toString mul ++ "]"
  | .ptrRegRegWord base offset mul =>
    if mul == 1 then "WORD PTR [" ++ printReg 3 base ++ "+" ++ printReg 3 offset ++ "]"
    else "WORD PTR [" ++ printReg 3 base ++ "+" ++ printReg 3 offset ++ "*" ++
      toString mul ++ "]"
  | .ptrRegRegDword base offset mul =>
    if mul == 1 then "DWORD PTR [" ++ printReg 3 base ++ "+" ++ printReg 3 offset ++ "]"
    else "DWORD PTR [" ++ printReg 3 base ++ "+" ++ printReg 3 offset ++ "*" ++
      toString mul ++ "]"
  | .ptrRegRegQword base offset mul =>
    if mul == 1 then "QWORD PTR [" ++ printReg 3 base ++ "+" ++ printReg 3 offset ++ "]"
    else "QWORD PTR [" ++ printReg 3 base ++ "+" ++ printReg 3 offset ++ "*" ++
      toString mul ++ "]"
  | _ => "???"

/-- `x86.rs` `struct Instruction`. -/
structure Instruction : Type where
  operation : Operation
  reg1 : Operand
  reg2 : Operand
  offset : Nat
  insSize : Nat
  deriving DecidableEq

/-- `x86.rs` `Instruction::print`.  `Sbb` falls to the source's trailing
`_ => "unknown"` arm. -/
def Instruction.print (i : Instruction) : String :=
  match i.operation with
  | .add => "add " ++ i.reg1.print ++ ", " ++ i.reg2.print
  | .adc => "adc " ++ i.reg1.print ++ ", " ++ i.reg2.print
  | .sub => "sub " ++ i.reg1.print ++ ", " ++ i.reg2.print
  | .or => "or " ++ i.reg1.print ++ ", " ++ i.reg2.print
  | .and => "and " ++ i.reg1.print ++ ", " ++ i.reg2.print
  | .xor => "xor " ++ i.reg1.print ++ ", " ++ i.reg2.print
  | .test => "test " ++ i.reg1.print ++ ", " ++ i.reg2.print
  | .cmp => "cmp " ++ i.reg1.print ++ ", " ++ i.reg2.print
  | .mov => "mov " ++ i.reg1.print ++ ", " ++ i.reg2.print
  | .push => "push " ++ i.reg1.print
  | .pop => "pop " ++ i.reg1.print
  | .nop => "nop"
  | .ret => "ret"
  | .call => "call " ++ i.reg1.print
  | .unknown => "(bad)"
  | _ => "unknown"

/-- `x86.rs` `Operand::into` (conversion to the `dis.rs` operand). -/
def Operand.intoDis : Operand → Dis.Operand
  | .reg8 x => .register (printReg 0 x)
  | .reg8H x => .register (printReg 4 x)
  | .reg16 x => .register (printReg 1 x)
  | .reg32 x => .register (printReg 2 x)
  | .reg64 x => .register (printReg 3 x)
  | .immU8 x => .immediate (x : Int)
  | .immU32 x => .immediate (x : Int)
  | .immS8 x => .immediate x
  | .ptrRegByte reg offset => .memory (printReg 3 reg) "" offset 1
  | .ptrRegWord reg offset => .memory (printReg 3 reg) "" offset 2
  | .ptrRegDword reg offset => .memory (printReg 3 reg) "" offset 4
  | .ptrRegQword reg offset => .memory (printReg 3 reg) "" offset 8
  | .ptrRelByte rel => .memory "." "" (rel : Int) 1
  | .ptrRelWord rel => .memory "." "" (rel : Int) 2
  | .ptrRelDword rel => .memory "." "" (rel : Int) 4
  | .ptrRelQword rel => .memory "." "" (rel : Int) 8
  | .ptrRegRegByte base offset _mul => .memory (printReg 3 base) (printReg 0 offset) 0 1
  | .ptrRegRegWord base offset _mul => .memory (printReg 3 base) (printReg 1 offset) 0 2
  | .ptrRegRegDword base offset _mul => .memory (printReg 3 base) (printReg 2 offset) 0 4
  | .ptrRegRegQword base offset _mul => .memory (printReg 3 base) (printReg 3 offset) 0 8
  | .nothing => .nothing

/-- `x86.rs` `Instruction::into` (conversion to the `dis.rs`
convergence struct); its `_ => panic!("")` arm — reached for `Adc`,
`Sbb`, `Cmp`, `Test` and `Unknown` — is modelled as `.error ()`. -/
def Instruction.intoDis (i : Instruction) : Except Unit Dis.Instruction :=
  match i.operation with
  | .add => .ok ⟨"add", [i.reg1.intoDis, i.reg1.intoDis, i.reg2.intoDis], 0⟩
  | .sub => .ok ⟨"sub", [i.reg1.intoDis, i.reg1.intoDis, i.reg2.intoDis], 0⟩
  | .and => .ok ⟨"and", [i.reg1.intoDis, i.reg1.intoDis, i.reg2.intoDis], 0⟩
  | .or => .ok ⟨"or", [i.reg1.intoDis, i.reg1.intoDis, i.reg2.intoDis], 0⟩
  | .xor => .ok ⟨"xor", [i.reg1.intoDis, i.reg1.intoDis, i.reg2.intoDis], 0⟩
  | .mov => .ok ⟨"mov", [i.reg1.intoDis, i.reg2.intoDis], 0⟩
  | .call => .ok ⟨"call", [i.reg1.intoDis], 0⟩
  | .push => .ok ⟨"push", [i.reg1.intoDis], 0⟩
  | .pop => .ok ⟨"pop", [i.reg1.intoDis], 0⟩
  | .nop => .ok ⟨"nop", [], 0⟩
  | .ret => .ok ⟨"ret", [], 0⟩
  | _ => .error ()

/-- `x86.rs` operand-size codes `OPSIZE_BYTE..OPSIZE_QWORD` (0..3),
as an enumeration; all call sites pass one of the four constants, so
the builders' `panic!("Invalid op size")` default arms are
unrepresentable. -/
inductive OpSize : Type where
  | byte | word | dword | qword
  deriving DecidableEq

/-- `x86.rs` `ins_dest_src`. -/
def insDestSrc (foffset insSize : Nat) (operation : Operation) (dest source : Operand) :
    Instruction :=
  { operation := operation, reg1 := dest, reg2 := source, offset := foffset,
    insSize := insSize }

/-- `x86.rs` `ins_single_op`. -/
def insSingleOp (foffset insSize : Nat) (operation : Operation) (op : Operand) :
    Instruction :=
  { operation := operation, reg1 := op, reg2 := .nothing, offset := foffset,
    insSize := insSize }

/-- `x86.rs` `ins_regh_regh`. -/
def insReghRegh (foffset insSize : Nat) (operation : Operation) (opSize : OpSize)
    (dest source : Nat) : Instruction :=
  match opSize with
  | .byte => insDestSrc foffset insSize operation (.reg8H dest) (.reg8H source)
  | .word => insDestSrc foffset insSize operation (.reg16 dest) (.reg16 source)
  | .dword => insDestSrc foffset insSize operation (.reg32 dest) (.reg32 source)
  | .qword => insDestSrc foffset insSize operation (.reg64 dest) (.reg64 source)

/-- `x86.rs` `ins_regh_imm8`. -/
def insReghImm8 (foffset insSize : Nat) (operation : Operation) (opSize : OpSize)
    (dest : Nat) (source : Int) : Instruction :=
  match opSize with
  | .byte => insDestSrc foffset insSize operation (.reg8H dest) (.immS8 source)
  | .word => insDestSrc foffset insSize operation (.reg16 dest) (.immS8 source)
  | .dword => insDestSrc foffset insSize operation (.reg32 dest) (.immS8 source)
  | .qword => insDestSrc foffset insSize operation (.reg64 dest) (.immS8 source)

/-- `x86.rs` `ins_preg_regh`. -/
def insPregRegh (foffset insSize : Nat) (operation : Operation) (opSize : OpSize)
    (dest : Nat) (offset : Int) (source : Nat) : Instruction :=
  match opSize with
  | .byte => insDestSrc foffset insSize operation (.ptrRegByte dest offset) (.reg8H source)
  | .word => insDestSrc foffset insSize operation (.ptrRegWord dest offset) (.reg16 source)
  | .dword => insDestSrc foffset insSize operation (.ptrRegDword dest offset) (.reg32 source)
  | .qword => insDestSrc foffset insSize operation (.ptrRegQword dest offset) (.reg64 source)

/-- `x86.rs` `ins_regh_preg`. -/
def insReghPreg (foffset insSize : Nat) (operation : Operation) (opSize : OpSize)
    (dest source : Nat) (offset : Int) : Instruction :=
  match opSize with
  | .byte => insDestSrc foffset insSize operation (.reg8H dest) (.ptrRegByte source offset)
  | .word => insDestSrc foffset insSize operation (.reg16 dest) (.ptrRegWord source offset)
  | .dword => insDestSrc foffset insSize operation (.reg32 dest) (.ptrRegDword source offset)
  | .qword => insDestSrc foffset insSize operation (.reg64 dest) (.ptrRegQword source offset)

/-- `x86.rs` `ins_regh_pregreg`. -/
def insReghPregreg (foffset insSize : Nat) (operation : Operation) (opSize : OpSize)
    (dest source offset mul : Nat) : Instruction :=
  match opSize with
  | .byte => insDestSrc foffset insSize operation (.reg8H dest) (.ptrRegRegByte source offset mul)
  | .word => insDestSrc foffset insSize operation (.reg16 dest) (.ptrRegRegWord source offset mul)
  | .dword => insDestSrc foffset insSize operation (.reg32 dest) (.ptrRegRegDword source offset mul)
  | .qword => insDestSrc foffset insSize operation (.reg64 dest) (.ptrRegRegQword source offset mul)

/-- `x86.rs` `ins_pregreg_regh` (note the source's operand asymmetries:
the byte/word rows use `source` for both sides, the dword/qword rows
use `dest` for the register side). -/
def insPregregRegh (foffset insSize : Nat) (operation : Operation) (opSize : OpSize)
    (source dest offset mul : Nat) : Instruction :=
  match opSize with
  | .byte => insDestSrc foffset insSize operation (.ptrRegRegByte source offset mul) (.reg8H source)
  | .word => insDestSrc foffset insSize operation (.ptrRegRegWord source offset mul) (.reg16 source)
  | .dword => insDestSrc foffset insSize operation (.ptrRegRegDword source offset mul) (.reg32 dest)
  | .qword => insDestSrc foffset insSize operation (.ptrRegRegQword source offset mul) (.reg64 dest)

/-- `x86.rs` `ins_regh_prel`. -/
def insReghPrel (foffset insSize : Nat) (operation : Operation) (opSize : OpSize)
    (dest offset : Nat) : Instruction :=
  match opSize with
  | .byte => insDestSrc foffset insSize operation (.reg8H dest) (.ptrRelByte offset)
  | .word => insDestSrc foffset insSize operation (.reg16 dest) (.ptrRelWord offset)
  | .dword => insDestSrc foffset insSize operation (.reg32 dest) (.ptrRelDword offset)
  | .qword => insDestSrc foffset insSize operation (.reg64 dest) (.ptrRelQword offset)

/-- `x86.rs` `ins_prel_regh`. -/
def insPrelRegh (foffset insSize : Nat) (operation : Operation) (opSize : OpSize)
    (source offset : Nat) : Instruction :=
  match opSize with
  | .byte => insDestSrc foffset insSize operation (.ptrRelByte offset) (.reg8H source)
  | .word => insDestSrc foffset insSize operation (.ptrRelWord offset) (.reg16 source)
  | .dword => insDestSrc foffset insSize operation (.ptrRelDword offset) (.reg32 source)
  | .qword => insDestSrc foffset insSize operation (.ptrRelQword offset) (.reg64 source)

/-- The `mod=00` register table of `disassemble_x86_op_op` (AX..DI with
`_ => DI`; 4 and 5 are handled before this table is consulted). -/
def mod0Reg (m : Nat) : Nat :=
  match m with
  | 0x0 => 0 | 0x1 => 1 | 0x2 => 2 | 0x3 => 3
  | 0x6 => 6 | 0x7 => 7 | _ => 7

/-- The signed 8-bit displacement of `disassemble_x86_op_op`:
`if bytes[offset+2] & 0x80 != 0 { -(0x100 - b) } else { b }`. -/
def disp8 (d : Nat) : Int :=
  if d &&& 0x80 != 0 then -((0x100 : Int) - d) else d

/-- `x86.rs` `disassemble_x86_op_op`: decode a ModR/M form.  Unguarded
byte reads of the source (`bytes[offset+2]`, the four displacement
bytes) are slice panics when out of bounds, modelled as `.error ()`. -/
def disassembleX86OpOp (operation : Operation) (bytes : List Nat) (offset : Nat)
    (opSize : OpSize) (swapOperands : Bool) : Except Unit (Option Instruction) :=
  if offset + 1 ≥ bytes.length then .ok none
  else
    match bytes.get? (offset + 1) with
    | none => .error ()
    | some x =>
      if x &&& 0b11000000 == 0 then
        if x &&& 0b111 == 0x4 then
          match bytes.get? (offset + 2) with
          | none => .error ()
          | some y =>
            if swapOperands then
              .ok (some (insReghPregreg offset 3 operation opSize ((x >>> 3) &&& 0b111)
                (y &&& 0b111) ((y >>> 3) &&& 0b111) ((y >>> 6) &&& 0b11)))
            else
              .ok (some (insPregregRegh offset 3 operation opSize ((x >>> 3) &&& 0b111)
                (y &&& 0b111) ((y >>> 3) &&& 0b111) ((y >>> 6) &&& 0b11)))
        else if x &&& 0b111 == 0x5 then
          match bytes.get? (offset + 2) with
          | none => .error ()
          | some c0 =>
            match bytes.get? (offset + 3) with
            | none => .error ()
            | some c1 =>
              match bytes.get? (offset + 4) with
              | none => .error ()
              | some c2 =>
                match bytes.get? (offset + 5) with
                | none => .error ()
                | some c3 =>
                  if swapOperands then
                    .ok (some (insReghPrel offset 6 operation opSize ((x >>> 3) &&& 0b111)
                      (c0 + c1 * 256 + c2 * 65536 + c3 * 16777216)))
                  else
                    .ok (some (insPrelRegh offset 6 operation opSize ((x >>> 3) &&& 0b111)
                      (c0 + c1 * 256 + c2 * 65536 + c3 * 16777216)))
        else
          if swapOperands then
            .ok (some (insReghPreg offset 2 operation opSize ((x >>> 3) &&& 0b111)
              (mod0Reg (x &&& 0b111)) 0))
          else
            .ok (some (insPregRegh offset 2 operation opSize (mod0Reg (x &&& 0b111)) 0
              ((x >>> 3) &&& 0b111)))
      else if x &&& 0b11000000 == 0b01000000 then
        match bytes.get? (offset + 2) with
        | none => .error ()
        | some d =>
          if swapOperands then
            .ok (some (insReghPreg offset 3 operation opSize ((x >>> 3) &&& 0b111)
              (x &&& 0b111) (disp8 d)))
          else
            .ok (some (insPregRegh offset 3 operation opSize (x &&& 0b111) (disp8 d)
              ((x >>> 3) &&& 0b111)))
      else if x &&& 0b11000000 == 0b11000000 then
        if swapOperands then
          .ok (some (insReghRegh offset 2 operation opSize (x &&& 0b111) ((x >>> 3) &&& 0b111)))
        else
          .ok (some (insReghRegh offset 2 operation opSize ((x >>> 3) &&& 0b111) (x &&& 0b111)))
      else
        .ok none

/-- `x86.rs` `disassemble_x86_al_imm8` (unguarded `bytes[offset+1]`). -/
def disassembleX86AlImm8 (operation : Operation) (bytes : List Nat) (offset : Nat) :
    Except Unit (Option Instruction) :=
  match bytes.get? (offset + 1) with
  | none => .error ()
  | some imm => .ok (some (insDestSrc offset 2 operation (.reg8 0) (.immU8 imm)))

/-- The operation table of `disassemble_x86_op_imm` (selected by
`bextr(5,3)` of the ModR/M byte). -/
def opImmOperation (m : Nat) : Option Operation :=
  match m with
  | 0x0 => some .add | 0x1 => some .or | 0x2 => some .adc | 0x3 => some .sbb
  | 0x4 => some .and | 0x5 => some .sub | 0x6 => some .xor | 0x7 => some .cmp
  | _ => none

/-- `x86.rs` `disassemble_x86_op_imm` (opcodes 0x80 / 0x83). -/
def disassembleX86OpImm (bytes : List Nat) (offset : Nat) (opSize : OpSize) :
    Except Unit (Option Instruction) :=
  if offset + 1 ≥ bytes.length then .ok none
  else
    match bytes.get? (offset + 1) with
    | none => .error ()
    | some x =>
      match opImmOperation ((x >>> 3) &&& 0b111) with
      | none => .ok none
      | some operation =>
        if x &&& 0b11000000 == 0b11000000 then
          match bytes.get? (offset + 2) with
          | none => .error ()
          | some s =>
            .ok (some (insReghImm8 offset 3 operation opSize (x &&& 0b111) (Baretk.toI8 s)))
        else .ok none

/-- `x86.rs` `disassemble_x86_push_pop` (re-reads `bytes[offset]`). -/
def disassembleX86PushPop (operation : Operation) (bytes : List Nat) (offset : Nat) :
    Except Unit (Option Instruction) :=
  match bytes.get? offset with
  | none => .error ()
  | some b =>
    .ok (some (insSingleOp offset 1 operation
      (.reg64 (b - (match operation with | .push => 0x50 | .pop => 0x58 | _ => 0)))))

/-- `x86.rs` `disassemble_x86_branch_imm`: the result operand is the
relative displacement plus the instruction size (wrapping addition). -/
def disassembleX86BranchImm (operation : Operation) (bytes : List Nat) (offset : Nat)
    (opSize : OpSize) : Except Unit (Option Instruction) :=
  match opSize with
  | .byte =>
    match bytes.get? (offset + 1) with
    | none => .error ()
    | some b =>
      .ok (some (insSingleOp offset 2 operation
        (.immS8 (Baretk.toI8 (Baretk.intToU8 (Baretk.toI8 b + 2))))))
  | .dword =>
    match bytes.get? (offset + 1) with
    | none => .error ()
    | some c0 =>
      match bytes.get? (offset + 2) with
      | none => .error ()
      | some c1 =>
        match bytes.get? (offset + 3) with
        | none => .error ()
        | some c2 =>
          match bytes.get? (offset + 4) with
          | none => .error ()
          | some c3 =>
            .ok (some (insSingleOp offset 5 operation
              (.immU32 ((c0 + c1 * 256 + c2 * 65536 + c3 * 16777216 + 5) % 2^32))))
  | _ => .ok none

/-- `x86.rs` `disassemble_x86_mov_imm` (opcodes 0xB0..0xBF). -/
def disassembleX86MovImm (bytes : List Nat) (offset : Nat) (opSize : OpSize) :
    Except Unit (Option Instruction) :=
  match bytes.get? offset with
  | none => .error ()
  | some b =>
    match opSize with
    | .byte =>
      match bytes.get? (offset + 1) with
      | none => .error ()
      | some imm => .ok (some (insDestSrc offset 2 .mov (.reg8 (b - 0xb0)) (.immU8 imm)))
    | .dword =>
      match bytes.get? (offset + 1) with
      | none => .error ()
      | some c0 =>
        match bytes.get? (offset + 2) with
        | none => .error ()
        | some c1 =>
          match bytes.get? (offset + 3) with
          | none => .error ()
          | some c2 =>
            match bytes.get? (offset + 4) with
            | none => .error ()
            | some c3 =>
              .ok (some (insDestSrc offset 5 .mov (.reg32 (b - 0xb8))
                (.immU32 (c0 + c1 * 256 + c2 * 65536 + c3 * 16777216))))
    | _ => .ok none

/-- `x86.rs` `rex_w_qword_or_dword`. -/
def rexWQwordOrDword (pfx : Nat) : OpSize :=
  if pfx &&& 1 != 0 then .qword else .dword

/-- `x86.rs` `disassemble_x86_instruction`: decode one instruction at
`offset` with a running prefix flag (`pfx` bit 0 = `PREFIX_REX_W`).
A `0x48` byte recursively decodes at `offset+1` with the flag set, adds
one to the returned size and resets the offset.  The recursion is fueled;
the drivers always supply enough fuel (`bytes.length + 1` dominates any
chain of prefix bytes). -/
def disassembleX86Instruction (bytes : List Nat) :
    Nat → Nat → Nat → Except Unit (Option Instruction)
  | 0, _, _ => .error ()
  | fuel + 1, offset, pfx =>
    if offset ≥ bytes.length then .ok none
    else
      match bytes.get? offset with
      | none => .error ()
      | some opcode =>
        if opcode == 0x48 then
          match disassembleX86Instruction bytes fuel (offset + 1) (pfx ||| 1) with
          | .error e => .error e
          | .ok none => .ok none
          | .ok (some i) =>
            .ok (some { i with insSize := i.insSize + 1, offset := offset })
        else
          match opcode with
          | 0x00 => disassembleX86OpOp .add bytes offset .byte false
          | 0x01 => disassembleX86OpOp .add bytes offset .dword false
          | 0x02 => disassembleX86OpOp .add bytes offset .byte true
          | 0x03 => disassembleX86OpOp .add bytes offset .dword true
          | 0x04 => disassembleX86AlImm8 .add bytes offset
          | 0x08 => disassembleX86OpOp .or bytes offset .byte false
          | 0x09 => disassembleX86OpOp .or bytes offset .dword false
          | 0x0a => disassembleX86OpOp .or bytes offset .byte true
          | 0x0b => disassembleX86OpOp .or bytes offset .dword true
          | 0x0c => disassembleX86AlImm8 .or bytes offset
          | 0x10 => disassembleX86OpOp .adc bytes offset .byte false
          | 0x11 => disassembleX86OpOp .adc bytes offset .dword false
          | 0x12 => disassembleX86OpOp .adc bytes offset .byte true
          | 0x13 => disassembleX86OpOp .adc bytes offset .dword true
          | 0x14 => disassembleX86AlImm8 .adc bytes offset
          | 0x20 => disassembleX86OpOp .and bytes offset .byte false
          | 0x21 => disassembleX86OpOp .and bytes offset .dword false
          | 0x22 => disassembleX86OpOp .and bytes offset .byte true
          | 0x23 => disassembleX86OpOp .and bytes offset .dword true
          | 0x24 => disassembleX86AlImm8 .and bytes offset
          | 0x28 => disassembleX86OpOp .sub bytes offset .byte false
          | 0x29 => disassembleX86OpOp .sub bytes offset .dword false
          | 0x2a => disassembleX86OpOp .sub bytes offset .byte true
          | 0x2b => disassembleX86OpOp .sub bytes offset .dword true
          | 0x2c => disassembleX86AlImm8 .sub bytes offset
          | 0x30 => disassembleX86OpOp .xor bytes offset .byte false
          | 0x31 => disassembleX86OpOp .xor bytes offset .dword false
          | 0x32 => disassembleX86OpOp .xor bytes offset .byte true
          | 0x33 => disassembleX86OpOp .xor bytes offset .dword true
          | 0x34 => disassembleX86AlImm8 .xor bytes offset
          | 0x38 => disassembleX86OpOp .cmp bytes offset .byte false
          | 0x39 => disassembleX86OpOp .cmp bytes offset .dword false
          | 0x3a => disassembleX86OpOp .cmp bytes offset .byte true
          | 0x3b => disassembleX86OpOp .cmp bytes offset .dword true
          | 0x3c => disassembleX86AlImm8 .cmp bytes offset
          | 0x50 => disassembleX86PushPop .push bytes offset
          | 0x51 => disassembleX86PushPop .push bytes offset
          | 0x52 => disassembleX86PushPop .push bytes offset
          | 0x53 => disassembleX86PushPop .push bytes offset
          | 0x54 => disassembleX86PushPop .push bytes offset
          | 0x55 => disassembleX86PushPop .push bytes offset
          | 0x56 => disassembleX86PushPop .push bytes offset
          | 0x57 => disassembleX86PushPop .push bytes offset
          | 0x58 => disassembleX86PushPop .pop bytes offset
          | 0x59 => disassembleX86PushPop .pop bytes offset
          | 0x5a => disassembleX86PushPop .pop bytes offset
          | 0x5b => disassembleX86PushPop .pop bytes offset
          | 0x5c => disassembleX86PushPop .pop bytes offset
          | 0x5d => disassembleX86PushPop .pop bytes offset
          | 0x5e => disassembleX86PushPop .pop bytes offset
          | 0x5f => disassembleX86PushPop .pop bytes offset
          | 0x80 => disassembleX86OpImm bytes offset .byte
          | 0x83 => disassembleX86OpImm bytes offset (rexWQwordOrDword pfx)
          | 0x84 => disassembleX86OpOp .mov bytes offset .byte false
          | 0x85 => disassembleX86OpOp .test bytes offset (rexWQwordOrDword pfx) false
          | 0x88 => disassembleX86OpOp .mov bytes offset .byte false
          | 0x89 => disassembleX86OpOp .mov bytes offset (rexWQwordOrDword pfx) false
          | 0x8a => disassembleX86OpOp .mov bytes offset .byte true
          | 0x8b => disassembleX86OpOp .mov bytes offset .dword true
          | 0x90 => .ok (some { operation := .nop, reg1 := .nothing, reg2 := .nothing,
                                offset := offset, insSize := 1 })
          | 0xb0 => disassembleX86MovImm bytes offset .byte
          | 0xb1 => disassembleX86MovImm bytes offset .byte
          | 0xb2 => disassembleX86MovImm bytes offset .byte
          | 0xb3 => disassembleX86MovImm bytes offset .byte
          | 0xb4 => disassembleX86MovImm bytes offset .byte
          | 0xb5 => disassembleX86MovImm bytes offset .byte
          | 0xb6 => disassembleX86MovImm bytes offset .byte
          | 0xb7 => disassembleX86MovImm bytes offset .byte
          | 0xb8 => disassembleX86MovImm bytes offset .dword
          | 0xb9 => disassembleX86MovImm bytes offset .dword
          | 0xba => disassembleX86MovImm bytes offset .dword
          | 0xbb => disassembleX86MovImm bytes offset .dword
          | 0xbc => disassembleX86MovImm bytes offset .dword
          | 0xbd => disassembleX86MovImm bytes offset .dword
          | 0xbe => disassembleX86MovImm bytes offset .dword
          | 0xbf => disassembleX86MovImm bytes offset .dword
          | 0xc3 => .ok (some { operation := .ret, reg1 := .nothing, reg2 := .nothing,
                                offset := offset, insSize := 1 })
          | 0xe8 => disassembleX86BranchImm .call bytes offset .dword
          | _ => .ok none

/-- The x86 driver's Unknown placeholder (1 byte). -/
def unknownIns (offset : Nat) : Instruction :=
  { operation := .unknown, reg1 := .nothing, reg2 := .nothing, offset := offset,
    insSize := 1 }

/-- The loop body of `x86.rs` `disassemble_x86`, with explicit fuel.
Each decode starts with prefix 0. -/
def disassembleX86Go (bytes : List Nat) : Nat → Nat → RunRes (List Instruction)
  | 0, _ => .fuelOut
  | fuel + 1, offset =>
    if offset < bytes.length then
      match disassembleX86Instruction bytes (bytes.length + 1) offset 0 with
      | .error _ => .panicked
      | .ok (some i) =>
        RunRes.consOk i (disassembleX86Go bytes fuel (offset + i.insSize))
      | .ok none =>
        RunRes.consOk (unknownIns offset) (disassembleX86Go bytes fuel (offset + 1))
    else
      .ok []

/-- `x86.rs` `disassemble_x86` applied to a section's bytes. -/
def disassembleX86 (bytes : List Nat) : RunRes (List Instruction) :=
  disassembleX86Go bytes (bytes.length + 1) 0

/-- Sum of `ins_size` over an x86 instruction list. -/
def sumSizes (l : List Instruction) : Nat := (l.map Instruction.insSize).sum

end X86

/-! ## decomp.rs: IR printing and the decompilation driver -/

/-- Indentation prefix: `4 * depth` spaces. -/
def indentStr (depth : Nat) : String := String.join (List.replicate depth "    ")

/-- First symbol of the list whose address equals the given value
(mirrors the source's `for symbol in symbols` scans). -/
def findSymbolName (symbols : List (Nat × String)) (addr : Nat) : Option String :=
  match symbols.find? (fun s => s.1 == addr) with
  | some s => some s.2
  | none => none

mutual

/-- `decomp.rs` `Expr::print`, `Language::Pseudocode` branch (the only
implemented language; the other branches are `todo!()` in the source).
The early `return`s of the `Call`/`Goto` symbol-substitution paths
bypass the indentation prefix, as in the source. -/
def exprPrint (depth : Nat) (symbols : List (Nat × String)) : Expr → String
  | .constant i => indentStr depth ++ toString i
  | .register r => indentStr depth ++ r
  | .label r => indentStr depth ++ r
  | .dereference s rhs =>
    indentStr depth ++
      (match s with
       | 1 => "*u8(" ++ exprPrint 0 symbols rhs ++ ")"
       | 2 => "*u16(" ++ exprPrint 0 symbols rhs ++ ")"
       | 4 => "*u32(" ++ exprPrint 0 symbols rhs ++ ")"
       | 8 => "*u64(" ++ exprPrint 0 symbols rhs ++ ")"
       | _ => "*(" ++ exprPrint 0 symbols rhs ++ ")")
  | .binary op lhs rhs =>
    indentStr depth ++
      (if op == OP_ADD then "(" ++ exprPrint 0 symbols lhs ++ " + " ++ exprPrint 0 symbols rhs ++ ")"
       else if op == OP_SUB then "(" ++ exprPrint 0 symbols lhs ++ " - " ++ exprPrint 0 symbols rhs ++ ")"
       else if op == OP_MUL then "(" ++ exprPrint 0 symbols lhs ++ " * " ++ exprPrint 0 symbols rhs ++ ")"
       else if op == OP_AND then "(" ++ exprPrint 0 symbols lhs ++ " & " ++ exprPrint 0 symbols rhs ++ ")"
       else if op == OP_OR then "(" ++ exprPrint 0 symbols lhs ++ " | " ++ exprPrint 0 symbols rhs ++ ")"
       else if op == OP_XOR then "(" ++ exprPrint 0 symbols lhs ++ " ^ " ++ exprPrint 0 symbols rhs ++ ")"
       else if op == OP_LSL then "(" ++ exprPrint 0 symbols lhs ++ " << " ++ exprPrint 0 symbols rhs ++ ")"
       else if op == OP_LSR then "(" ++ exprPrint 0 symbols lhs ++ " >> " ++ exprPrint 0 symbols rhs ++ ")"
       else if op == OP_ASR then "(" ++ exprPrint 0 symbols lhs ++ " >>> " ++ exprPrint 0 symbols rhs ++ ")"
       else if op == OP_CMP then "cmp(" ++ exprPrint 0 symbols lhs ++ ", " ++ exprPrint 0 symbols rhs ++ ")"
       else if op == OP_LT then "(" ++ exprPrint 0 symbols lhs ++ " < " ++ exprPrint 0 symbols rhs ++ ")"
       else if op == OP_GT then "(" ++ exprPrint 0 symbols lhs ++ " > " ++ exprPrint 0 symbols rhs ++ ")"
       else if op == OP_LTE then "(" ++ exprPrint 0 symbols lhs ++ " <= " ++ exprPrint 0 symbols rhs ++ ")"
       else if op == OP_GTE then "(" ++ exprPrint 0 symbols lhs ++ " >= " ++ exprPrint 0 symbols rhs ++ ")"
       else if op == OP_EQ then "(" ++ exprPrint 0 symbols lhs ++ " == " ++ exprPrint 0 symbols rhs ++ ")"
       else if op == OP_NEQ then "(" ++ exprPrint 0 symbols lhs ++ " != " ++ exprPrint 0 symbols rhs ++ ")"
       else if op == OP_ANDAND then "(" ++ exprPrint 0 symbols lhs ++ " && " ++ exprPrint 0 symbols rhs ++ ")"
       else if op == OP_OROR then "(" ++ exprPrint 0 symbols lhs ++ " || " ++ exprPrint 0 symbols rhs ++ ")"
       else "(" ++ exprPrint 0 symbols lhs ++ " ? " ++ exprPrint 0 symbols rhs ++ ")")
  | .call op =>
    (match op with
     | .constant c =>
       match findSymbolName symbols (Baretk.intToU64 c) with
       | some name => name ++ "()"
       | none => indentStr depth ++ "(" ++ exprPrint 0 symbols op ++ ")()"
     | _ => indentStr depth ++ "(" ++ exprPrint 0 symbols op ++ ")()")
  | .ret => indentStr depth ++ "return"
  | .goto op =>
    (match op with
     | .constant c =>
       match findSymbolName symbols (Baretk.intToU64 c) with
       | some name => "goto " ++ name
       | none => indentStr depth ++ "goto (" ++ exprPrint 0 symbols op ++ ")"
     | _ => indentStr depth ++ "goto (" ++ exprPrint 0 symbols op ++ ")")
  | .ifE cond then_ else_ =>
    indentStr depth ++
      (String.stripSuffix
        ("if (" ++ exprPrint 0 symbols cond ++ ") " ++ exprPrint 0 symbols then_ ++ "\n" ++
          (match else_ with
           | some el => "else " ++ exprPrint 0 symbols el ++ "\n"
           | none => "")) "\n")
  | .store dest src =>
    indentStr depth ++ exprPrint 0 symbols dest ++ " = " ++ exprPrint 0 symbols src
  | .nop => indentStr depth ++ "nop"
  | .group g =>
    indentStr depth ++ String.stripSuffix ("do:\n" ++ exprPrintGroup (depth + 1) symbols g) "\n"
  | .special name args =>
    indentStr depth ++
      String.stripSuffix ("$" ++ name ++ "(" ++ exprPrintArgs symbols args) ", " ++ ")"

/-- The `Group` loop of `Expr::print`: each member on its own line,
prefixed with four extra spaces on top of its own indentation. -/
def exprPrintGroup (depth : Nat) (symbols : List (Nat × String)) : List Expr → String
  | [] => ""
  | e :: t => "    " ++ exprPrint depth symbols e ++ "\n" ++ exprPrintGroup depth symbols t

/-- The `Special` argument loop of `Expr::print` (arguments joined by
`", "`, with a trailing separator stripped by the caller). -/
def exprPrintArgs (symbols : List (Nat × String)) : List Expr → String
  | [] => ""
  | e :: t => exprPrint 0 symbols e ++ ", " ++ exprPrintArgs symbols t

end

/-- `decomp.rs` `decomp_disassembly` specialised to a RISC-V
instruction listing (the per-ISA dispatch of `decomp_instruction` calls
the instruction's `into_expr`; RISC-V is the variant whose lifter
exists in the source).  For each instruction: if some symbol's address
equals the instruction's offset, a `Label` is pushed and the loop
`continue`s — the instruction itself is not lifted; otherwise its
lifted expression is pushed.  The statement id advances by one in both
cases (one list entry per instruction). -/
def decompDisassembly (symbols : List (Nat × String)) :
    List Rv.Instruction → List Expr
  | [] => []
  | i :: t =>
    match findSymbolName symbols i.offset with
    | some name => .label name :: decompDisassembly symbols t
    | none => i.intoExpr :: decompDisassembly symbols t

/-- Modelled from the spec: the x86 lifter row "CALL target →
`Call(target)`" of §4.6 (the snapshot's `decomp.rs` calls an
`into_expr` the x86 module does not define — only the `dis.rs`
convergence conversion exists — so the x86 Expr lift is taken from the
spec's table; an immediate operand becomes a `Constant`). -/
def x86LiftCallSpec (i : X86.Instruction) : Option Expr :=
  match i.operation, i.reg1 with
  | .call, .immU8 x => some (.call (.constant (x : Int)))
  | .call, .immU32 x => some (.call (.constant (x : Int)))
  | .call, .immS8 x => some (.call (.constant x))
  | _, _ => none

/-! ## Layout predicates for the driver invariants -/

/-- A RISC-V instruction list laid out from `o`: each element records
its start offset, its size is 2 or 4, and the next element starts right
after it (offsets are the prefix sums of the preceding sizes). -/
def Rv.chainFrom : Nat → List Rv.Instruction → Prop
  | _, [] => True
  | o, i :: t => i.offset = o ∧ (i.insSize = 2 ∨ i.insSize = 4) ∧
      Rv.chainFrom (o + i.insSize) t

/-- An x86 instruction list laid out from `o`: positive sizes, offsets
are the prefix sums of the preceding sizes. -/
def X86.chainFrom : Nat → List X86.Instruction → Prop
  | _, [] => True
  | o, i :: t => i.offset = o ∧ 1 ≤ i.insSize ∧ X86.chainFrom (o + i.insSize) t

/-- An ARM instruction list laid out from `o` with load address `addr`:
every size is 4, decoded instructions record `addr + position`, Unknown
placeholders record the bare position. -/
def Arm.chainFrom (addr : Nat) : Nat → List Arm.Instruction → Prop
  | _, [] => True
  | o, i :: t => i.insSize = 4 ∧
      i.offset = (if i.opcode.isUnknown then o else addr + o) ∧
      Arm.chainFrom addr (o + 4) t

/-- The set of RISC-V operations whose `into_expr` arm is a plain `Nop`
(either an explicit `expr_nop()` arm or the trailing `_` arm of the
source). -/
def Rv.unloweredOp : Rv.Operation → Bool
  | .slt | .sltu | .sll | .srl | .sra | .slti | .sltui
  | .slli | .srli | .srai | .slliw | .srliw | .sraiw
  | .addw | .subw | .sllw | .srlw | .sraw | .mulw
  | .lbu | .lhu | .lwu | .addiw | .bltu | .bgeu | .unknown => true
  | _ => false

section BextrProof

private lemma bextr_core (w : Nat) (x hi lo : Nat) (hhi : hi < w) (hlo : lo ≤ hi) :
    ((x <<< (w - hi - 1)) % 2^w) >>> (w - (hi - lo) - 1) = (x >>> lo) % 2^(hi - lo + 1) := by
  have ha : w - hi - 1 = w - (hi + 1) := by omega
  rw [Nat.shiftLeft_eq, Nat.shiftRight_eq_div_pow, Nat.shiftRight_eq_div_pow]
  have hexp1 : (hi + 1) + (w - (hi + 1)) = w := by omega
  have h1 : 2^w = 2^(hi+1) * 2^(w - (hi+1)) := by rw [← pow_add, hexp1]
  have h2 : (x * 2^(w - hi - 1)) % 2^w = (x % 2^(hi+1)) * 2^(w - (hi+1)) := by
    rw [ha, h1, Nat.mul_mod_mul_right]
  rw [h2]
  have h5 : 2^(w - (hi - lo) - 1) = 2^(w - (hi+1)) * 2^lo := by
    rw [← pow_add]
    have : (w - (hi+1)) + lo = w - (hi - lo) - 1 := by omega
    rw [this]
  rw [h5, ← Nat.div_div_eq_div_mul,
    Nat.mul_div_cancel _ (Nat.pos_pow_of_pos _ (by norm_num))]
  have h4 : 2^(hi+1) = 2^lo * 2^(hi - lo + 1) := by
    rw [← pow_add]
    have : lo + (hi - lo + 1) = hi + 1 := by omega
    rw [this]
  conv_lhs => rw [h4]
  rw [Nat.mod_mul_right_div_self]

private lemma and_two_pow_sub_one (n k : Nat) : n &&& (2^k - 1) = n % 2^k :=
  Nat.and_pow_two_sub_one_eq_mod n k

lemma bextrSpec_eq_mod (x hi lo : Nat) : bextrSpec x hi lo = (x >>> lo) % 2^(hi - lo + 1) := by
  unfold bextrSpec
  rw [Nat.shiftLeft_eq, one_mul, and_two_pow_sub_one]

end BextrProof

end Baretk

/-- C9: for every unsigned word of width 16 or 32 and all bit positions
`lo ≤ hi < W`, the implemented `bextr(x, hi, lo)` — computed as
`(x << (W-1-hi)) >> (W-1-hi+lo)` with wrap-around on the left shift —
equals the reference definition `(x >> lo) & ((1 << (hi-lo+1)) - 1)`,
and the checked version (with the source's assertion) is defined exactly
when `hi < W` and `lo ≤ hi`. -/
theorem bextr_correct (x hi lo : Nat) :
    (hi < 32 → lo ≤ hi →
      Baretk.bextrU32Checked x hi lo = some (Baretk.bextrSpec x hi lo)) ∧
    (hi < 16 → lo ≤ hi →
      Baretk.bextrU16Checked x hi lo = some (Baretk.bextrSpec x hi lo)) ∧
    ((Baretk.bextrU32Checked x hi lo).isSome ↔ (hi < 32 ∧ lo ≤ hi)) ∧
    ((Baretk.bextrU16Checked x hi lo).isSome ↔ (hi < 16 ∧ lo ≤ hi)) := by
  refine ⟨fun hhi hlo => ?_, fun hhi hlo => ?_, ?_, ?_⟩
  · unfold Baretk.bextrU32Checked
    rw [if_pos ⟨hhi, hlo⟩, Baretk.bextrSpec_eq_mod]
    exact congrArg some (Baretk.bextr_core 32 x hi lo hhi hlo)
  · unfold Baretk.bextrU16Checked
    rw [if_pos ⟨hhi, hlo⟩, Baretk.bextrSpec_eq_mod]
    exact congrArg some (Baretk.bextr_core 16 x hi lo hhi hlo)
  · unfold Baretk.bextrU32Checked
    split <;> simp_all
  · unfold Baretk.bextrU16Checked
    split <;> simp_all

/-- Witness for C9: `bextr(0xABCD, 11, 4)` on both widths equals the
reference value `0xBC`, and the assertion boundary behaves as claimed. -/
theorem bextr_correct_witness :
    Baretk.bextrU32Checked 0xABCD 11 4 = some 0xBC ∧
    Baretk.bextrU16Checked 0xABCD 11 4 = some 0xBC ∧
    (Baretk.bextrU16Checked 0xABCD 16 4).isSome = false := by
  have h := bextr_correct 0xABCD 11 4
  refine ⟨?_, ?_, by decide⟩
  · have := h.1 (by decide) (by decide)
    rw [this]; decide
  · have := h.2.1 (by decide) (by decide)
    rw [this]; decide

namespace Baretk

/-! ## Driver layout invariants: RISC-V -/

lemma mem_lt_of_get?_eq_some {l : List Nat} {n : Nat} {b : Nat}
    (h : l.get? n = some b) : n < l.length :=
  List.get?_eq_some.mp h |>.1

namespace Rv

lemma dis32_facts {w off : Nat} {i : Instruction}
    (h : disassemble32 w off = some i) : i.offset = off ∧ i.insSize = 4 := by
  unfold disassemble32 at h
  repeat' split at h
  all_goals first
    | exact Option.noConfusion h
    | (cases h; exact ⟨rfl, rfl⟩)

lemma dis16_facts {w off : Nat} {i : Instruction}
    (h : disassemble16 w off = some i) : i.offset = off ∧ i.insSize = 2 := by
  unfold disassemble16 at h
  repeat' split at h
  all_goals first
    | exact Option.noConfusion h
    | (cases h; exact ⟨rfl, rfl⟩)

lemma disIns_facts {bytes : List Nat} {off : Nat} {i : Instruction}
    (h : disassembleInstruction bytes off = .ok (some i)) :
    i.offset = off ∧ (i.insSize = 2 ∨ i.insSize = 4) ∧
    off + i.insSize ≤ bytes.length := by
  unfold disassembleInstruction at h
  split at h
  case h_1 => exact Except.noConfusion h
  case h_2 b0 hb0 =>
    split at h
    case h_1 => exact Except.noConfusion h
    case h_2 b1 hb1 =>
      split at h
      case isTrue hcond =>
        split at h
        case h_1 => exact Except.noConfusion h
        case h_2 b2 hb2 =>
          split at h
          case h_1 => exact Except.noConfusion h
          case h_2 b3 hb3 =>
            obtain ⟨ho, hs⟩ := dis32_facts (Except.ok.inj h)
            have hlt := mem_lt_of_get?_eq_some hb3
            exact ⟨ho, Or.inr hs, by omega⟩
      case isFalse hcond =>
        obtain ⟨ho, hs⟩ := dis16_facts (Except.ok.inj h)
        have hlt := mem_lt_of_get?_eq_some hb1
        exact ⟨ho, Or.inl hs, by omega⟩

lemma rvSumSizes_nil : sumSizes [] = 0 := rfl

lemma rvSumSizes_cons (i : Instruction) (t : List Instruction) :
    sumSizes (i :: t) = i.insSize + sumSizes t := by
  simp [sumSizes]

end Rv

lemma RunRes.consOk_ok {α : Type} {a : α} {r : RunRes (List α)} {l : List α}
    (h : RunRes.consOk a r = .ok l) : ∃ rest, r = .ok rest ∧ l = a :: rest := by
  cases r with
  | ok rest => exact ⟨rest, rfl, (RunRes.ok.inj h).symm⟩
  | panicked => exact RunRes.noConfusion h
  | fuelOut => exact RunRes.noConfusion h

namespace Rv

lemma rvGo_ok (bytes : List Nat) :
    ∀ fuel off l, disassembleRiscvGo bytes fuel off = .ok l →
      chainFrom off l ∧ bytes.length < off + sumSizes l + 2 ∧
      (off ≤ bytes.length → off + sumSizes l ≤ bytes.length) ∧
      sumSizes l % 2 = 0 := by
  intro fuel
  induction fuel with
  | zero => intro off l h; exact RunRes.noConfusion h
  | succ n ih =>
    intro off l h
    unfold disassembleRiscvGo at h
    split at h
    case isTrue hle =>
      split at h
      case h_1 => exact RunRes.noConfusion h
      case h_2 ins hins =>
        obtain ⟨rest, hrest, rfl⟩ := RunRes.consOk_ok h
        obtain ⟨hoff, hsz, hbound⟩ := disIns_facts hins
        obtain ⟨hc, hlt, hle2, hpar⟩ := ih _ _ hrest
        have hle3 := hle2 (by omega)
        refine ⟨⟨hoff, hsz, hc⟩, ?_, ?_, ?_⟩ <;> rw [rvSumSizes_cons] <;> intros <;> omega
      case h_3 hins =>
        split at h
        case isTrue hguard =>
          obtain ⟨rest, hrest, rfl⟩ := RunRes.consOk_ok h
          obtain ⟨hc, hlt, hle2, hpar⟩ := ih _ _ hrest
          have hu : (unknownIns off 4).insSize = 4 := rfl
          have hle3 := hle2 (by omega)
          refine ⟨⟨rfl, Or.inr rfl, hc⟩, ?_, ?_, ?_⟩ <;>
            rw [rvSumSizes_cons, hu] <;> intros <;> omega
        case isFalse hguard =>
          obtain ⟨rest, hrest, rfl⟩ := RunRes.consOk_ok h
          obtain ⟨hc, hlt, hle2, hpar⟩ := ih _ _ hrest
          have hu : (unknownIns off 2).insSize = 2 := rfl
          have hle3 := hle2 (by omega)
          refine ⟨⟨rfl, Or.inl rfl, hc⟩, ?_, ?_, ?_⟩ <;>
            rw [rvSumSizes_cons, hu] <;> intros <;> omega
    case isFalse hgt =>
      cases h
      refine ⟨trivial, ?_, ?_, ?_⟩ <;> rw [rvSumSizes_nil] <;> intros <;> omega

end Rv

/-! ## Driver layout invariants: x86 -/

namespace X86

lemma insReghRegh_facts (foffset insSize : Nat) (op : Operation) (sz : OpSize)
    (d s : Nat) : (insReghRegh foffset insSize op sz d s).offset = foffset ∧
      (insReghRegh foffset insSize op sz d s).insSize = insSize := by
  cases sz <;> exact ⟨rfl, rfl⟩

lemma insReghImm8_facts (foffset insSize : Nat) (op : Operation) (sz : OpSize)
    (d : Nat) (s : Int) : (insReghImm8 foffset insSize op sz d s).offset = foffset ∧
      (insReghImm8 foffset insSize op sz d s).insSize = insSize := by
  cases sz <;> exact ⟨rfl, rfl⟩

lemma insPregRegh_facts (foffset insSize : Nat) (op : Operation) (sz : OpSize)
    (d : Nat) (o : Int) (s : Nat) :
    (insPregRegh foffset insSize op sz d o s).offset = foffset ∧
      (insPregRegh foffset insSize op sz d o s).insSize = insSize := by
  cases sz <;> exact ⟨rfl, rfl⟩

lemma insReghPreg_facts (foffset insSize : Nat) (op : Operation) (sz : OpSize)
    (d s : Nat) (o : Int) :
    (insReghPreg foffset insSize op sz d s o).offset = foffset ∧
      (insReghPreg foffset insSize op sz d s o).insSize = insSize := by
  cases sz <;> exact ⟨rfl, rfl⟩

lemma insReghPregreg_facts (foffset insSize : Nat) (op : Operation) (sz : OpSize)
    (d s o m : Nat) :
    (insReghPregreg foffset insSize op sz d s o m).offset = foffset ∧
      (insReghPregreg foffset insSize op sz d s o m).insSize = insSize := by
  cases sz <;> exact ⟨rfl, rfl⟩

lemma insPregregRegh_facts (foffset insSize : Nat) (op : Operation) (sz : OpSize)
    (s d o m : Nat) :
    (insPregregRegh foffset insSize op sz s d o m).offset = foffset ∧
      (insPregregRegh foffset insSize op sz s d o m).insSize = insSize := by
  cases sz <;> exact ⟨rfl, rfl⟩

lemma insReghPrel_facts (foffset insSize : Nat) (op : Operation) (sz : OpSize)
    (d o : Nat) :
    (insReghPrel foffset insSize op sz d o).offset = foffset ∧
      (insReghPrel foffset insSize op sz d o).insSize = insSize := by
  cases sz <;> exact ⟨rfl, rfl⟩

lemma insPrelRegh_facts (foffset insSize : Nat) (op : Operation) (sz : OpSize)
    (s o : Nat) :
    (insPrelRegh foffset insSize op sz s o).offset = foffset ∧
      (insPrelRegh foffset insSize op sz s o).insSize = insSize := by
  cases sz <;> exact ⟨rfl, rfl⟩

/-- Facts established for each decode helper: the decoded instruction
starts at `offset`, has a positive size and fits inside the buffer. -/
def decodeFits (bytes : List Nat) (offset : Nat) (i : Instruction) : Prop :=
  i.offset = offset ∧ 1 ≤ i.insSize ∧ offset + i.insSize ≤ bytes.length

lemma opOp_facts {op : Operation} {bytes : List Nat} {offset : Nat} {sz : OpSize}
    {sw : Bool} {i : Instruction}
    (h : disassembleX86OpOp op bytes offset sz sw = .ok (some i)) :
    decodeFits bytes offset i := by
  unfold disassembleX86OpOp at h
  split at h
  case isTrue => exact Option.noConfusion (Except.ok.inj h)
  case isFalse hguard =>
    split at h
    case h_1 => exact Except.noConfusion h
    case h_2 x hx =>
      split at h
      case isTrue hmod0 =>
        split at h
        case isTrue hsib =>
          split at h
          case h_1 => exact Except.noConfusion h
          case h_2 y hy =>
            have hlt := mem_lt_of_get?_eq_some hy
            split at h <;>
              [obtain ⟨ho, hs⟩ := insReghPregreg_facts offset 3 op sz
                ((x >>> 3) &&& 7) (y &&& 7) ((y >>> 3) &&& 7) ((y >>> 6) &&& 3);
               obtain ⟨ho, hs⟩ := insPregregRegh_facts offset 3 op sz
                ((x >>> 3) &&& 7) (y &&& 7) ((y >>> 3) &&& 7) ((y >>> 6) &&& 3)] <;>
              (cases Except.ok.inj h; exact ⟨ho, by omega, by omega⟩)
        case isFalse hsib =>
          split at h
          case isTrue hrip =>
            split at h
            case h_1 => exact Except.noConfusion h
            case h_2 c0 hc0 =>
              split at h
              case h_1 => exact Except.noConfusion h
              case h_2 c1 hc1 =>
                split at h
                case h_1 => exact Except.noConfusion h
                case h_2 c2 hc2 =>
                  split at h
                  case h_1 => exact Except.noConfusion h
                  case h_2 c3 hc3 =>
                    have hlt := mem_lt_of_get?_eq_some hc3
                    split at h <;>
                      [obtain ⟨ho, hs⟩ := insReghPrel_facts offset 6 op sz
                        ((x >>> 3) &&& 7) (c0 + c1 * 256 + c2 * 65536 + c3 * 16777216);
                       obtain ⟨ho, hs⟩ := insPrelRegh_facts offset 6 op sz
                        ((x >>> 3) &&& 7) (c0 + c1 * 256 + c2 * 65536 + c3 * 16777216)] <;>
                      (cases Except.ok.inj h; exact ⟨ho, by omega, by omega⟩)
          case isFalse hrip =>
            split at h <;>
              [obtain ⟨ho, hs⟩ := insReghPreg_facts offset 2 op sz
                ((x >>> 3) &&& 7) (mod0Reg (x &&& 7)) 0;
               obtain ⟨ho, hs⟩ := insPregRegh_facts offset 2 op sz
                (mod0Reg (x &&& 7)) 0 ((x >>> 3) &&& 7)] <;>
              (cases Except.ok.inj h; exact ⟨ho, by omega, by omega⟩)
      case isFalse hmod0 =>
        split at h
        case isTrue hmod1 =>
          split at h
          case h_1 => exact Except.noConfusion h
          case h_2 d hd =>
            have hlt := mem_lt_of_get?_eq_some hd
            split at h <;>
              [obtain ⟨ho, hs⟩ := insReghPreg_facts offset 3 op sz
                ((x >>> 3) &&& 7) (x &&& 7) (disp8 d);
               obtain ⟨ho, hs⟩ := insPregRegh_facts offset 3 op sz
                (x &&& 7) (disp8 d) ((x >>> 3) &&& 7)] <;>
              (cases Except.ok.inj h; exact ⟨ho, by omega, by omega⟩)
        case isFalse hmod1 =>
          split at h
          case isTrue hmod3 =>
            split at h <;>
              [obtain ⟨ho, hs⟩ := insReghRegh_facts offset 2 op sz
                (x &&& 7) ((x >>> 3) &&& 7);
               obtain ⟨ho, hs⟩ := insReghRegh_facts offset 2 op sz
                ((x >>> 3) &&& 7) (x &&& 7)] <;>
              (cases Except.ok.inj h; exact ⟨ho, by omega, by omega⟩)
          case isFalse hmod3 => exact Option.noConfusion (Except.ok.inj h)

lemma alImm8_facts {op : Operation} {bytes : List Nat} {offset : Nat} {i : Instruction}
    (h : disassembleX86AlImm8 op bytes offset = .ok (some i)) :
    decodeFits bytes offset i := by
  unfold disassembleX86AlImm8 at h
  split at h
  case h_1 => exact Except.noConfusion h
  case h_2 imm himm =>
    have hlt := mem_lt_of_get?_eq_some himm
    cases Except.ok.inj h
    refine ⟨rfl, ?_, ?_⟩ <;> simp only [insDestSrc] <;> omega

lemma opImm_facts {bytes : List Nat} {offset : Nat} {sz : OpSize} {i : Instruction}
    (h : disassembleX86OpImm bytes offset sz = .ok (some i)) :
    decodeFits bytes offset i := by
  unfold disassembleX86OpImm at h
  split at h
  case isTrue => exact Option.noConfusion (Except.ok.inj h)
  case isFalse hguard =>
    split at h
    case h_1 => exact Except.noConfusion h
    case h_2 x hx =>
      split at h
      case h_1 => exact Option.noConfusion (Except.ok.inj h)
      case h_2 op hop =>
        split at h
        case isTrue hmod =>
          split at h
          case h_1 => exact Except.noConfusion h
          case h_2 s hs =>
            have hlt := mem_lt_of_get?_eq_some hs
            obtain ⟨ho, hsz⟩ := insReghImm8_facts offset 3 op sz (x &&& 7) (Baretk.toI8 s)
            cases Except.ok.inj h
            exact ⟨ho, by omega, by omega⟩
        case isFalse hmod => exact Option.noConfusion (Except.ok.inj h)

lemma pushPop_facts {op : Operation} {bytes : List Nat} {offset : Nat} {i : Instruction}
    (h : disassembleX86PushPop op bytes offset = .ok (some i)) :
    decodeFits bytes offset i := by
  unfold disassembleX86PushPop at h
  split at h
  case h_1 => exact Except.noConfusion h
  case h_2 b hb =>
    have hlt := mem_lt_of_get?_eq_some hb
    cases Except.ok.inj h
    refine ⟨rfl, ?_, ?_⟩ <;> simp only [insSingleOp] <;> omega

lemma branchImm_facts {op : Operation} {bytes : List Nat} {offset : Nat} {sz : OpSize}
    {i : Instruction} (h : disassembleX86BranchImm op bytes offset sz = .ok (some i)) :
    decodeFits bytes offset i := by
  unfold disassembleX86BranchImm at h
  split at h
  · -- byte
    split at h
    case h_1 => exact Except.noConfusion h
    case h_2 b hb =>
      have hlt := mem_lt_of_get?_eq_some hb
      cases Except.ok.inj h
      refine ⟨rfl, ?_, ?_⟩ <;> simp only [insSingleOp] <;> omega
  · -- dword
    split at h
    case h_1 => exact Except.noConfusion h
    case h_2 c0 hc0 =>
      split at h
      case h_1 => exact Except.noConfusion h
      case h_2 c1 hc1 =>
        split at h
        case h_1 => exact Except.noConfusion h
        case h_2 c2 hc2 =>
          split at h
          case h_1 => exact Except.noConfusion h
          case h_2 c3 hc3 =>
            have hlt := mem_lt_of_get?_eq_some hc3
            cases Except.ok.inj h
            refine ⟨rfl, ?_, ?_⟩ <;> simp only [insSingleOp] <;> omega
  · exact Option.noConfusion (Except.ok.inj h)

lemma movImm_facts {bytes : List Nat} {offset : Nat} {sz : OpSize} {i : Instruction}
    (h : disassembleX86MovImm bytes offset sz = .ok (some i)) :
    decodeFits bytes offset i := by
  unfold disassembleX86MovImm at h
  split at h
  case h_1 => exact Except.noConfusion h
  case h_2 b hb =>
    split at h
    · -- byte
      split at h
      case h_1 => exact Except.noConfusion h
      case h_2 imm himm =>
        have hlt := mem_lt_of_get?_eq_some himm
        cases Except.ok.inj h
        refine ⟨rfl, ?_, ?_⟩ <;> simp only [insDestSrc] <;> omega
    · -- dword
      split at h
      case h_1 => exact Except.noConfusion h
      case h_2 c0 hc0 =>
        split at h
        case h_1 => exact Except.noConfusion h
        case h_2 c1 hc1 =>
          split at h
          case h_1 => exact Except.noConfusion h
          case h_2 c2 hc2 =>
            split at h
            case h_1 => exact Except.noConfusion h
            case h_2 c3 hc3 =>
              have hlt := mem_lt_of_get?_eq_some hc3
              cases Except.ok.inj h
              refine ⟨rfl, ?_, ?_⟩ <;> simp only [insDestSrc] <;> omega
    · exact Option.noConfusion (Except.ok.inj h)

set_option maxHeartbeats 2000000 in
lemma x86Decode_facts {bytes : List Nat} :
    ∀ fuel offset pfx i,
      disassembleX86Instruction bytes fuel offset pfx = .ok (some i) →
      decodeFits bytes offset i := by
  intro fuel
  induction fuel with
  | zero => intro _ _ _ h; exact Except.noConfusion h
  | succ n ih =>
    intro offset pfx i h
    unfold disassembleX86Instruction at h
    split at h
    case isTrue => exact Option.noConfusion (Except.ok.inj h)
    case isFalse hguard =>
      split at h
      case h_1 => exact Except.noConfusion h
      case h_2 opcode hop =>
        split at h
        case isTrue hrex =>
          split at h
          case h_1 => exact Except.noConfusion h
          case h_2 => exact Option.noConfusion (Except.ok.inj h)
          case h_3 inner hinner =>
            obtain ⟨ho, hpos, hfit⟩ := ih _ _ _ hinner
            cases Except.ok.inj h
            have hsz : ({ inner with insSize := inner.insSize + 1, offset := offset }
                : Instruction).insSize = inner.insSize + 1 := rfl
            exact ⟨rfl, by omega, by omega⟩
        case isFalse hrex =>
          split at h
          all_goals first
            | exact opOp_facts h
            | exact alImm8_facts h
            | exact opImm_facts h
            | exact pushPop_facts h
            | exact branchImm_facts h
            | exact movImm_facts h
            | (cases Except.ok.inj h; refine ⟨rfl, ?_, ?_⟩ <;> simp <;> omega)
            | exact Option.noConfusion (Except.ok.inj h)

lemma x86SumSizes_nil : sumSizes [] = 0 := rfl

lemma x86SumSizes_cons (i : Instruction) (t : List Instruction) :
    sumSizes (i :: t) = i.insSize + sumSizes t := by
  simp [sumSizes]

lemma x86Go_ok (bytes : List Nat) :
    ∀ fuel off l, disassembleX86Go bytes fuel off = .ok l →
      chainFrom off l ∧ (off ≤ bytes.length → off + sumSizes l = bytes.length) := by
  intro fuel
  induction fuel with
  | zero => intro off l h; exact RunRes.noConfusion h
  | succ n ih =>
    intro off l h
    unfold disassembleX86Go at h
    split at h
    case isTrue hlt =>
      split at h
      case h_1 => exact RunRes.noConfusion h
      case h_2 ins hins =>
        obtain ⟨rest, hrest, rfl⟩ := RunRes.consOk_ok h
        obtain ⟨hoff, hpos, hfit⟩ := x86Decode_facts _ _ _ _ hins
        obtain ⟨hc, hsum⟩ := ih _ _ hrest
        have hsum2 := hsum (by omega)
        exact ⟨⟨hoff, hpos, hc⟩, fun _ => by rw [x86SumSizes_cons]; omega⟩
      case h_3 hins =>
        obtain ⟨rest, hrest, rfl⟩ := RunRes.consOk_ok h
        obtain ⟨hc, hsum⟩ := ih _ _ hrest
        have hsum2 := hsum (by omega)
        have hu : (unknownIns off).insSize = 1 := rfl
        exact ⟨⟨rfl, by omega, hc⟩, fun _ => by rw [x86SumSizes_cons, hu]; omega⟩
    case isFalse hge =>
      cases h
      exact ⟨trivial, fun hle => by rw [x86SumSizes_nil]; omega⟩

end X86

/-! ## Driver layout invariants: ARM -/

namespace Arm

set_option maxHeartbeats 1000000 in
lemma armOpsfA_not_unknown {w : Nat} {oc : Opcode} {sf : Bool}
    (h : armOpsfA w = some (oc, sf)) : oc.isUnknown = false := by
  unfold armOpsfA at h
  repeat' split at h
  all_goals first
    | exact Option.noConfusion h
    | (cases Option.some.inj h; rfl)

set_option maxHeartbeats 1000000 in
lemma armOpsfB_not_unknown {w : Nat} {oc : Opcode} {sf : Bool}
    (h : armOpsfB w = some (oc, sf)) : oc.isUnknown = false := by
  unfold armOpsfB at h
  repeat' split at h
  all_goals first
    | exact Option.noConfusion h
    | (cases Option.some.inj h; rfl)

set_option maxHeartbeats 1000000 in
lemma armOpsfC_not_unknown {w : Nat} {oc : Opcode} {sf : Bool}
    (h : armOpsfC w = some (oc, sf)) : oc.isUnknown = false := by
  unfold armOpsfC at h
  repeat' split at h
  all_goals first
    | exact Option.noConfusion h
    | (cases Option.some.inj h; rfl)

lemma armOpsf_not_unknown {w : Nat} {oc : Opcode} {sf : Bool}
    (h : armOpsf w = some (oc, sf)) : oc.isUnknown = false := by
  unfold armOpsf at h
  split at h
  · rename_i p hp
    cases Option.some.inj h
    exact armOpsfA_not_unknown hp
  · rename_i hpA
    split at h
    · rename_i p hp
      cases Option.some.inj h
      exact armOpsfB_not_unknown hp
    · exact armOpsfC_not_unknown h

lemma armDecode_facts {w o : Nat} {i : Instruction}
    (h : disassembleArmIns w o = some i) :
    i.offset = o ∧ i.insSize = 4 ∧ i.opcode.isUnknown = false := by
  unfold disassembleArmIns at h
  split at h
  case h_1 => exact Option.noConfusion h
  case h_2 oc sf hp =>
    cases h
    refine ⟨rfl, rfl, ?_⟩
    exact armOpsf_not_unknown hp

lemma armSumSizes_nil : sumSizes [] = 0 := rfl

lemma armSumSizes_cons (i : Instruction) (t : List Instruction) :
    sumSizes (i :: t) = i.insSize + sumSizes t := by
  simp [sumSizes]

lemma armGo_ok (address : Nat) (bytes : List Nat) :
    ∀ fuel off l, disassembleArmGo address bytes fuel off = .ok l →
      chainFrom address off l ∧
      (off ≤ bytes.length → off + sumSizes l = bytes.length) := by
  intro fuel
  induction fuel with
  | zero => intro off l h; exact RunRes.noConfusion h
  | succ n ih =>
    intro off l h
    unfold disassembleArmGo at h
    split at h
    case isTrue hlt =>
      split at h
      case h_1 => exact RunRes.noConfusion h
      case h_2 b0 hb0 =>
        split at h
        case h_1 => exact RunRes.noConfusion h
        case h_2 b1 hb1 =>
          split at h
          case h_1 => exact RunRes.noConfusion h
          case h_2 b2 hb2 =>
            split at h
            case h_1 => exact RunRes.noConfusion h
            case h_2 b3 hb3 =>
              have hfit := mem_lt_of_get?_eq_some hb3
              split at h
              case h_1 ins hins =>
                obtain ⟨rest, hrest, rfl⟩ := RunRes.consOk_ok h
                obtain ⟨hoff, hsz, hunk⟩ := armDecode_facts hins
                obtain ⟨hc, hsum⟩ := ih _ _ hrest
                rw [hsz] at hc hsum
                have hsum2 := hsum (by omega)
                refine ⟨⟨hsz, ?_, hc⟩, fun _ => by rw [armSumSizes_cons]; omega⟩
                rw [hunk]; simpa using hoff
              case h_2 hins =>
                obtain ⟨rest, hrest, rfl⟩ := RunRes.consOk_ok h
                obtain ⟨hc, hsum⟩ := ih _ _ hrest
                have hsum2 := hsum (by omega)
                have hu : (unknownIns off).insSize = 4 := rfl
                refine ⟨⟨rfl, ?_, hc⟩, fun _ => by rw [armSumSizes_cons, hu]; omega⟩
                simp [unknownIns, Opcode.isUnknown]
    case isFalse hge =>
      cases h
      exact ⟨trivial, fun hle => by rw [armSumSizes_nil]; omega⟩

end Arm

end Baretk


/-- Claim C1, amended: for every disassembly run that completes, each
ISA's instruction list is laid out along the chain of prefix sums of
the instruction sizes over byte positions.  RISC-V and x86 record the
position itself as the offset, so for those two drivers offsets are
strictly increasing and section-relative.  The sum of `ins_size`
equals the section length for x86 and for completed ARM runs, while
for RISC-V it equals the length rounded down to a multiple of 2 (a
trailing odd byte is never covered).  ARM records
`section.addr + position` as the offset of a decoded instruction — it
includes the load address — while the Unknown placeholder records the
bare position, so recorded ARM offsets are in general neither
section-relative nor monotonic (see the counterexample). -/
theorem driver_layout_amended :
    (∀ bytes l, Baretk.Rv.disassembleRiscv bytes = .ok l →
      Baretk.Rv.chainFrom 0 l ∧
      Baretk.Rv.sumSizes l = bytes.length - bytes.length % 2) ∧
    (∀ bytes l, Baretk.X86.disassembleX86 bytes = .ok l →
      Baretk.X86.chainFrom 0 l ∧ Baretk.X86.sumSizes l = bytes.length) ∧
    (∀ addr bytes l, Baretk.Arm.disassembleArm addr bytes = .ok l →
      Baretk.Arm.chainFrom addr 0 l ∧ Baretk.Arm.sumSizes l = bytes.length) := by
  refine ⟨fun bytes l h => ?_, fun bytes l h => ?_, fun addr bytes l h => ?_⟩
  · obtain ⟨hc, hlt, hle, hpar⟩ := Baretk.Rv.rvGo_ok bytes _ 0 l h
    exact ⟨hc, by have := hle (by omega); omega⟩
  · obtain ⟨hc, hsum⟩ := Baretk.X86.x86Go_ok bytes _ 0 l h
    exact ⟨hc, by have := hsum (by omega); omega⟩
  · obtain ⟨hc, hsum⟩ := Baretk.Arm.armGo_ok addr bytes _ 0 l h
    exact ⟨hc, by have := hsum (by omega); omega⟩

/-- Counterexample to claim C1 as stated: the 3-byte RISC-V section
`[0x01, 0x00, 0x00]` decodes (without panicking) to a single 2-byte
C.ADDI, so the sum of `ins_size` is 2, not the section length 3; an
ARM section at load address 0x100 records offset 0x100 for the
instruction at byte position 0, so offsets are not the position within
the section; and the 8-byte ARM section whose second word `0x0C000000`
falls through every decoder pattern mixes a decoded offset
(`addr + position` = 256) with an Unknown bare-position offset (4), so
ARM offsets are not strictly monotonically increasing either. -/
theorem driver_layout_counterexample :
    Baretk.Rv.disassembleRiscv [1, 0, 0] =
      .ok [⟨.addi, .reg 0, .reg 0, .nothing, .nothing, .immS16 0, 0, 2⟩] ∧
    Baretk.Rv.sumSizes [⟨.addi, .reg 0, .reg 0, .nothing, .nothing, .immS16 0, 0, 2⟩] = 2 ∧
    (2 : Nat) ≠ 3 ∧
    Baretk.Arm.disassembleArm 256 [0, 0, 0, 0] =
      .ok [⟨.mul (.regO 0 0 0) (.regO 0 0 0) (.regO 0 0 0), 256, 0, false, 4⟩] ∧
    (256 : Nat) ≠ 0 ∧
    Baretk.Arm.disassembleArm 256 [0, 0, 0, 0, 0, 0, 0, 0x0C] =
      .ok [⟨.mul (.regO 0 0 0) (.regO 0 0 0) (.regO 0 0 0), 256, 0, false, 4⟩,
        ⟨.unknown, 4, 0, false, 4⟩] ∧
    ¬ (256 : Nat) < 4 := by
  refine ⟨by decide, by decide, by decide, by decide, by decide, by decide, by decide⟩

/-- Witness for the amended C1 theorem at concrete runs of all three
drivers. -/
theorem driver_layout_amended_witness :
    (Baretk.Rv.chainFrom 0 [⟨.addi, .reg 0, .reg 0, .nothing, .nothing, .immS16 0, 0, 2⟩] ∧
      Baretk.Rv.sumSizes [⟨.addi, .reg 0, .reg 0, .nothing, .nothing, .immS16 0, 0, 2⟩] = 2) ∧
    (Baretk.X86.chainFrom 0 [⟨.nop, .nothing, .nothing, 0, 1⟩] ∧
      Baretk.X86.sumSizes [⟨.nop, .nothing, .nothing, 0, 1⟩] = 1) ∧
    (Baretk.Arm.chainFrom 256 0
        [⟨.mul (.regO 0 0 0) (.regO 0 0 0) (.regO 0 0 0), 256, 0, false, 4⟩] ∧
      Baretk.Arm.sumSizes
        [⟨.mul (.regO 0 0 0) (.regO 0 0 0) (.regO 0 0 0), 256, 0, false, 4⟩] = 4) := by
  refine ⟨?_, ?_, ?_⟩
  · obtain ⟨hc, hs⟩ := driver_layout_amended.1 [1, 0, 0]
      [⟨.addi, .reg 0, .reg 0, .nothing, .nothing, .immS16 0, 0, 2⟩] (by decide)
    exact ⟨hc, by rw [hs]; decide⟩
  · obtain ⟨hc, hs⟩ := driver_layout_amended.2.1 [0x90]
      [⟨.nop, .nothing, .nothing, 0, 1⟩] (by decide)
    exact ⟨hc, by rw [hs]; decide⟩
  · obtain ⟨hc, hs⟩ := driver_layout_amended.2.2 256 [0, 0, 0, 0]
      [⟨.mul (.regO 0 0 0) (.regO 0 0 0) (.regO 0 0 0), 256, 0, false, 4⟩] (by decide)
    exact ⟨hc, by rw [hs]; decide⟩

/-- Claim C2: the decoder drivers are claimed never to abort on
truncated input; in the code both cited drivers panic (out-of-bounds
slice index).  A RISC-V section `[0x03, 0x00, 0x00]` whose first
halfword has low bits `11` (a 32-bit instruction) with fewer than 4
bytes remaining makes `disassemble_instruction` slice
`bytes[offset..offset+4]` out of range, and a 3-byte ARM section makes
`disassemble_ins` slice `bytes[0..4]` out of range — neither an
Unknown-2 nor a clean stop results. -/
theorem truncation_panics :
    Baretk.Rv.disassembleRiscv [3, 0, 0] = .panicked ∧
    Baretk.Arm.disassembleArm 0 [0, 0, 0] = .panicked := by
  refine ⟨by decide, by decide⟩

namespace Baretk

lemma decompDisassembly_length (symbols : List (Nat × String)) :
    ∀ instrs : List Rv.Instruction,
      (decompDisassembly symbols instrs).length = instrs.length := by
  intro instrs
  induction instrs with
  | nil => rfl
  | cons a t ih =>
    unfold decompDisassembly
    cases hf : findSymbolName symbols a.offset <;> simp [hf, ih]

lemma decompDisassembly_get_label (symbols : List (Nat × String)) :
    ∀ (instrs : List Rv.Instruction) (n : Nat) (i : Rv.Instruction) (name : String),
      instrs.get? n = some i →
      findSymbolName symbols i.offset = some name →
      (decompDisassembly symbols instrs).get? n = some (Expr.label name) := by
  intro instrs
  induction instrs with
  | nil => intro n i name hget _; exact absurd hget (by simp)
  | cons a t ih =>
    intro n i name hget hsym
    cases n with
    | zero =>
      cases Option.some.inj hget
      unfold decompDisassembly
      rw [hsym]
      rfl
    | succ m =>
      unfold decompDisassembly
      cases hf : findSymbolName symbols a.offset <;>
        simpa using ih m i name (by simpa using hget) hsym

end Baretk

/-- Claim C3, amended: when a symbol's address equals a decoded
instruction's offset, the decompilation driver pushes a `Label` with
the (first matching) symbol's name in place of that instruction — the
instruction is not lifted, its expression does not appear — and the
statement id still advances: the IR list keeps exactly one entry per
instruction. -/
theorem decomp_label_replaces :
    ∀ (symbols : List (Nat × String)) (instrs : List Baretk.Rv.Instruction),
      (Baretk.decompDisassembly symbols instrs).length = instrs.length ∧
      (∀ (n : Nat) (i : Baretk.Rv.Instruction) (name : String),
        instrs.get? n = some i →
        Baretk.findSymbolName symbols i.offset = some name →
        (Baretk.decompDisassembly symbols instrs).get? n = some (Baretk.Expr.label name)) :=
  fun symbols instrs =>
    ⟨Baretk.decompDisassembly_length symbols instrs,
     fun n i name hget hsym =>
       Baretk.decompDisassembly_get_label symbols instrs n i name hget hsym⟩

/-- Counterexample to claim C3 as stated: with a symbol `foo` at
address 0 and a single C.ADDI instruction at offset 0, the IR list is
exactly `[Label "foo"]` — the instruction's own store expression does
not appear in the list; the label replaces it rather than being
appended in addition to it. -/
theorem decomp_label_skips_instruction :
    Baretk.decompDisassembly [(0, "foo")]
        [⟨.addi, .reg 0, .reg 0, .nothing, .nothing, .immS16 0, 0, 2⟩] =
      [Baretk.Expr.label "foo"] ∧
    Baretk.Rv.Instruction.intoExpr ⟨.addi, .reg 0, .reg 0, .nothing, .nothing, .immS16 0, 0, 2⟩ =
      .store (.register "Zero") (.binary Baretk.OP_ADD (.register "Zero") (.constant 0)) ∧
    Baretk.Expr.label "foo" ≠
      .store (.register "Zero") (.binary Baretk.OP_ADD (.register "Zero") (.constant 0)) :=
  ⟨rfl, rfl, fun h => Baretk.Expr.noConfusion h⟩

/-- Witness for the amended C3 theorem at a concrete instruction and
symbol table. -/
theorem decomp_label_replaces_witness :
    (Baretk.decompDisassembly [(0, "foo")]
        [⟨.addi, .reg 0, .reg 0, .nothing, .nothing, .immS16 0, 0, 2⟩]).length = 1 ∧
    (Baretk.decompDisassembly [(0, "foo")]
        [⟨.addi, .reg 0, .reg 0, .nothing, .nothing, .immS16 0, 0, 2⟩]).get? 0 =
      some (Baretk.Expr.label "foo") :=
  ⟨(decomp_label_replaces [(0, "foo")] [⟨.addi, .reg 0, .reg 0, .nothing, .nothing,
      .immS16 0, 0, 2⟩]).1,
   (decomp_label_replaces [(0, "foo")] [⟨.addi, .reg 0, .reg 0, .nothing, .nothing,
      .immS16 0, 0, 2⟩]).2 0 _ "foo" rfl rfl⟩

/-- Claim C4: evaluation of the code at the failing input.  The LB
instruction `0x00000003` (LB x0, [x0 + 0]) decodes with a zero
immediate, and its lift dereferences `rs2` — which is `Nothing` for an
I-type load and lifts to `Nop` — instead of the `rs1` register operand,
so the lifted IR is `Store(Zero, Deref(1, Nop))`, unlike LH (shown for
contrast), which dereferences `rs1` as the claim states. -/
theorem lb_lift_uses_rs2 :
    Baretk.Rv.disassemble32 3 0 =
      some ⟨.lb, .reg 0, .reg 0, .nothing, .nothing, .immS32 0, 0, 4⟩ ∧
    Baretk.Rv.Instruction.intoExpr ⟨.lb, .reg 0, .reg 0, .nothing, .nothing, .immS32 0, 0, 4⟩ =
      .store (.register "Zero") (.dereference 1 .nop) ∧
    Baretk.Rv.Instruction.intoExpr ⟨.lh, .reg 0, .reg 0, .nothing, .nothing, .immS32 0, 0, 4⟩ =
      .store (.register "Zero") (.dereference 2 (.register "Zero")) ∧
    Baretk.Expr.dereference 1 Baretk.Expr.nop ≠
      Baretk.Expr.dereference 1 (.register "Zero") := by
  refine ⟨by decide, rfl, rfl, fun h => ?_⟩
  cases h

/-- Counterexample to claim C5 as stated: the ARM word `0x00000000`
does not decode to a data-processing AND — the earlier MUL/MLA pattern
(`bextr(27,22) == 0`) matches first. -/
theorem arm_word0_not_and :
    (Baretk.Arm.disassembleArmIns 0 0).map (fun i => i.opcode.isAnd) = some false := by
  decide

/-- Claim C5, amended: the ARM word `0x00000000` decodes as
MUL with condition EQ (cond = 0), rd = r0, operands r0 and r0, and
set-flags = 0, matched by the MUL/MLA arm of the decoder, which
precedes the data-processing arm. -/
theorem arm_word0_decodes_mul :
    Baretk.Arm.disassembleArmIns 0 0 =
      some ⟨.mul (.regO 0 0 0) (.regO 0 0 0) (.regO 0 0 0), 0, 0, false, 4⟩ := by
  decide

/-- Claim C6: evaluation of the code at the failing input.  `0xC3`
decodes to RET and `0x90` to NOP; `0x48 0x89 0xE5` decodes to one
3-byte instruction at offset 0 (REX.W adds one to the inner size and
resets the offset) widened to QWORD — but the `mod=11` arm takes the
ModR/M *reg* field (rsp) as destination and the *r/m* field (rbp) as
source, so it prints `mov rsp, rbp`, not `mov rbp, rsp`. -/
theorem x86_rexw_mov_prints_reversed :
    Baretk.X86.disassembleX86 [0x48, 0x89, 0xE5] =
      .ok [⟨.mov, .reg64 4, .reg64 5, 0, 3⟩] ∧
    Baretk.X86.Instruction.print ⟨.mov, .reg64 4, .reg64 5, 0, 3⟩ = "mov rsp, rbp" ∧
    "mov rsp, rbp" ≠ "mov rbp, rsp" ∧
    Baretk.X86.disassembleX86 [0xC3] = .ok [⟨.ret, .nothing, .nothing, 0, 1⟩] ∧
    Baretk.X86.disassembleX86 [0x90] = .ok [⟨.nop, .nothing, .nothing, 0, 1⟩] := by
  refine ⟨by decide, by decide, by decide, by decide, by decide⟩

set_option maxRecDepth 10000 in
/-- Counterexample to claim C7 as stated: decoding `E8 00 00 00 00` at
offset 0x100 yields a 5-byte CALL whose operand is 5 — the encoded
displacement plus the instruction size, with the instruction's own
offset never added — so the printed form is `call 0x5`, not
`call 0x105`. -/
theorem x86_call_prints_relative :
    Baretk.X86.disassembleX86Instruction
        (List.replicate 256 0x90 ++ [0xE8, 0, 0, 0, 0]) 262 256 0 =
      .ok (some ⟨.call, .immU32 5, .nothing, 256, 5⟩) ∧
    Baretk.X86.Instruction.print ⟨.call, .immU32 5, .nothing, 256, 5⟩ = "call 0x5" ∧
    "call 0x5" ≠ "call 0x105" := by
  refine ⟨rfl, by decide, by decide⟩

set_option maxRecDepth 10000 in
/-- Claim C7, amended: `E8 00 00 00 00` at offset 0x100 decodes to one
5-byte CALL at offset 0x100 whose operand is the displacement plus the
instruction size (0 + 5 = 5, regardless of the offset), printed
`call 0x5`; its lift (modelled from the spec's x86 table, the snapshot
has no x86 Expr lifter) is `Call(Constant 5)`; and the IR printer
substitutes `foo()` for a symbol at address 5 — a symbol at 0x105 is
not substituted and the constant prints instead. -/
theorem x86_call_amended :
    Baretk.X86.disassembleX86Instruction
        (List.replicate 256 0x90 ++ [0xE8, 0, 0, 0, 0]) 262 256 0 =
      .ok (some ⟨.call, .immU32 5, .nothing, 256, 5⟩) ∧
    Baretk.X86.Instruction.print ⟨.call, .immU32 5, .nothing, 256, 5⟩ = "call 0x5" ∧
    Baretk.x86LiftCallSpec ⟨.call, .immU32 5, .nothing, 256, 5⟩ =
      some (.call (.constant 5)) ∧
    Baretk.exprPrint 0 [(5, "foo")] (.call (.constant 5)) = "foo()" ∧
    Baretk.exprPrint 0 [(0x105, "foo")] (.call (.constant 5)) = "(5)()" := by
  refine ⟨rfl, by decide, rfl, by decide, by decide⟩

/-- Counterexample to claim C8 as stated: the bytes `39 C8` decode to a
CMP instruction, and converting it with the x86 `Instruction::into`
convergence conversion hits the source's `_ => panic!("")` arm — the
lift path for x86 CMP (likewise TEST, ADC, SBB, Unknown) fails rather
than emitting a Nop. -/
theorem x86_cmp_into_panics :
    Baretk.X86.disassembleX86 [0x39, 0xC8] = .ok [⟨.cmp, .reg32 1, .reg32 0, 0, 2⟩] ∧
    Baretk.X86.Instruction.intoDis ⟨.cmp, .reg32 1, .reg32 0, 0, 2⟩ = .error () := by
  refine ⟨by decide, rfl⟩

/-- Claim C8, amended: for RISC-V the lifter is total — every operation
the lifter does not lower produces `Nop`, never a panic — and the
decompilation driver emits exactly one IR entry per decoded
instruction, preserving statement-id alignment; the x86 convergence
conversion, by contrast, panics on CMP/TEST/ADC/SBB/Unknown (see the
counterexample). -/
theorem rv_lift_total_amended :
    (∀ (symbols : List (Nat × String)) (instrs : List Baretk.Rv.Instruction),
      (Baretk.decompDisassembly symbols instrs).length = instrs.length) ∧
    (∀ i : Baretk.Rv.Instruction, Baretk.Rv.unloweredOp i.operation = true →
      Baretk.Rv.Instruction.intoExpr i = .nop) := by
  refine ⟨Baretk.decompDisassembly_length, fun i h => ?_⟩
  obtain ⟨op, rd, rs1, rs2, rs3, imm, o, s⟩ := i
  cases op <;> first
    | rfl
    | exact absurd h (by simp [Baretk.Rv.unloweredOp])

/-- Witness for the amended C8 theorem: a concrete SLT instruction
lifts to `Nop`, and a one-instruction listing produces a one-entry IR
list. -/
theorem rv_lift_total_amended_witness :
    (Baretk.decompDisassembly []
      [⟨.slt, .reg 1, .reg 2, .reg 3, .nothing, .nothing, 0, 4⟩]).length = 1 ∧
    Baretk.Rv.Instruction.intoExpr ⟨.slt, .reg 1, .reg 2, .reg 3, .nothing, .nothing, 0, 4⟩ =
      .nop :=
  ⟨rv_lift_total_amended.1 [] [⟨.slt, .reg 1, .reg 2, .reg 3, .nothing, .nothing, 0, 4⟩],
   rv_lift_total_amended.2 ⟨.slt, .reg 1, .reg 2, .reg 3, .nothing, .nothing, 0, 4⟩
     (by decide)⟩

/-- The signed two-bit field `sbextr(12, 11)` is the unsigned field
`bextr(12, 11)` sign-extended from two bits: subtract 4 exactly when
the top bit (instruction bit 12) is set. -/
lemma sbextrI16_12_11 (x : Nat) :
    Baretk.sbextrI16 x 12 11 =
      (Baretk.bextrU16 x 12 11 : Int) -
        (if 2 ≤ Baretk.bextrU16 x 12 11 then 4 else 0) := by
  unfold Baretk.sbextrI16 Baretk.bextrU16 Baretk.sar Baretk.toI16
  have htlt : (x <<< (16 - 12 - 1)) % 2 ^ 16 < 2 ^ 16 :=
    Nat.mod_lt _ (by norm_num)
  set t := (x <<< (16 - 12 - 1)) % 2 ^ 16 with ht
  rw [Int.fdiv_eq_ediv _ (by norm_num), Nat.mod_eq_of_lt htlt,
    Nat.shiftRight_eq_div_pow]
  norm_num
  split <;> split <;> omega

/-- Counterexample to claim C10 as stated: the C.ADDI encodings
`0x0801` and `0x0001` agree on instruction bit 12 and on bits 6..2,
yet decode to different immediates (16 vs 0): `c_imm6` extracts the
signed field `sbextr(12, 11)`, so rd's high bit (instruction bit 11)
shifts into immediate bit 4. -/
theorem cimm6_bit11_matters :
    Baretk.Rv.disassemble16 0x0801 0 =
      some ⟨.addi, .reg 16, .reg 16, .nothing, .nothing, .immS16 16, 0, 2⟩ ∧
    Baretk.Rv.disassemble16 0x0001 0 =
      some ⟨.addi, .reg 0, .reg 0, .nothing, .nothing, .immS16 0, 0, 2⟩ ∧
    Baretk.bextrU16 0x0801 12 12 = Baretk.bextrU16 0x0001 12 12 ∧
    Baretk.bextrU16 0x0801 6 2 = Baretk.bextrU16 0x0001 6 2 ∧
    (16 : Int) ≠ 0 := by
  refine ⟨by decide, by decide, by decide, by decide, by decide⟩

/-- Claim C10, amended: the decoded 6-bit immediate of C.ADDI / C.LI is
determined by instruction bits 12..11 together with bits 6..2 — any two
encodings agreeing on `bextr(12, 11)` and `bextr(6, 2)` decode to the
same immediate. In particular bits 10..7 never influence it, but bit 11
(the rd field's high bit) does. -/
theorem cimm6_amended (a b : Nat)
    (h1 : Baretk.bextrU16 a 12 11 = Baretk.bextrU16 b 12 11)
    (h2 : Baretk.bextrU16 a 6 2 = Baretk.bextrU16 b 6 2) :
    Baretk.Rv.cImm6 a = Baretk.Rv.cImm6 b := by
  unfold Baretk.Rv.cImm6
  rw [sbextrI16_12_11 a, sbextrI16_12_11 b, h1, h2]

/-- Witness for the amended C10 theorem: `0x0081` and `0x0101` differ
only inside bits 10..7 and decode to the same immediate. -/
theorem cimm6_amended_witness :
    Baretk.bextrU16 0x0081 12 11 = Baretk.bextrU16 0x0101 12 11 ∧
    Baretk.bextrU16 0x0081 6 2 = Baretk.bextrU16 0x0101 6 2 ∧
    Baretk.Rv.cImm6 0x0081 = Baretk.Rv.cImm6 0x0101 :=
  ⟨by decide, by decide, cimm6_amended 0x0081 0x0101 (by decide) (by decide)⟩
